import Mathlib

/-!
Verification of the `rkm` loadable-kernel-module loader against its design
specification.  The Rust sources are shallowly embedded: machine integers are
modelled as `Nat`/`Int` with explicit reductions modulo `2 ^ w` where the code
wraps, memory is a byte-addressed function `Nat → Nat`, and fallible code
returns `Except` (a `Rust panic!`/`unimplemented!` is modelled by a dedicated
`Outcome.fatal` constructor so that it is distinguished from an `Err`).
-/

namespace Rkm

/-- Byte-addressed memory: the byte stored at each address.
Models the raw memory accessed through `Ptr` in `src/kmod-loader/src/arch/mod.rs`. -/
def Mem : Type := Nat → Nat

/-- Read `n` bytes little-endian starting at address `loc`
(models `Ptr::read::<uN>`). -/
def readLE (mem : Mem) (loc : Nat) : Nat → Nat
  | 0 => 0
  | n + 1 => mem loc + 256 * readLE mem (loc + 1) n

/-- Write the low `8*n` bits of `v` little-endian at address `loc`
(models `Ptr::write::<uN>`; bytes outside `[loc, loc+n)` are untouched). -/
def writeLE (mem : Mem) (loc n v : Nat) : Mem :=
  fun a => if loc ≤ a ∧ a < loc + n then v / 256 ^ (a - loc) % 256 else mem a

/-- Reinterpret a `u64` bit pattern as a two's-complement `i64`
(models Rust `x as i64` on a `u64`). -/
def toI64 (x : Nat) : Int :=
  if x % 2 ^ 64 < 2 ^ 63 then ((x % 2 ^ 64 : Nat) : Int)
  else ((x % 2 ^ 64 : Nat) : Int) - 2 ^ 64

/-- Sign-extend the low `w` bits of `x` (models Rust `x as iW as i64`
for a truncating cast to a `w`-bit signed integer). -/
def sext (w : Nat) (x : Nat) : Int :=
  if x % 2 ^ w < 2 ^ (w - 1) then ((x % 2 ^ w : Nat) : Int)
  else ((x % 2 ^ w : Nat) : Int) - 2 ^ w

/-- Reinterpret a two's-complement `i64` value as a `u64` bit pattern
(models Rust `z as u64` on an `i64`). -/
def toU64 (z : Int) : Nat := (z % 2 ^ 64).toNat

/-- Normalize an integer into the `i64` range `[-2^63, 2^63)`, i.e. wrapping
`i64` arithmetic (models `wrapping_add`/`wrapping_sub`/shifts on `i64`). -/
def wrap64 (z : Int) : Int := (z + 2 ^ 63) % 2 ^ 64 - 2 ^ 63

/-- `u64` wrapping subtraction `a - b` (models `u64::wrapping_sub`). -/
def wsub64 (a b : Nat) : Nat := (a % 2 ^ 64 + (2 ^ 64 - b % 2 ^ 64)) % 2 ^ 64

/-- The loader error type, from `src/kmod-loader/src/lib.rs`. -/
inductive ModuleErr : Type
  | InvalidElf
  | InvalidOperation
  | UnsupportedArch
  | RelocationFailed (msg : String)
  | MemoryAllocationFailed
  | UnsupportedFeature
  | UndefinedSymbol
  deriving DecidableEq, Repr

/-- Result of running a piece of Rust code that may return `Ok`, return `Err`,
or panic (`unimplemented!`/`unreachable!`): panics are kept distinct from
errors. -/
inductive Outcome (α : Type) : Type
  | ok (a : α)
  | err (e : ModuleErr)
  | fatal (msg : String)
  deriving DecidableEq, Repr

/-! ## x86-64 relocation engine, from `src/kmod-loader/src/arch/x86_64.rs` -/

/-- `X86_64RelocationType`, from `src/kmod-loader/src/arch/x86_64.rs`. -/
inductive X86RelocationType : Type
  | R_X86_64_NONE
  | R_X86_64_64
  | R_X86_64_PC32
  | R_X86_64_GOT32
  | R_X86_64_PLT32
  | R_X86_64_COPY
  | R_X86_64_GLOB_DAT
  | R_X86_64_JUMP_SLOT
  | R_X86_64_RELATIVE
  | R_X86_64_GOTPCREL
  | R_X86_64_32
  | R_X86_64_32S
  | R_X86_64_16
  | R_X86_64_PC16
  | R_X86_64_8
  | R_X86_64_PC8
  | R_X86_64_PC64
  deriving DecidableEq, Repr

/-- The `match self` arms of `X86_64RelocationType::apply_relocation` that
choose the write size and possibly adjust the value: returns `(size, value)`
or the overflow / unsupported-type error.  `R_X86_64_NONE` is handled by the
caller (it returns before this computation). -/
def x86SizeValue (ty : X86RelocationType) (location target : Nat) :
    Except ModuleErr (Nat × Nat) :=
  match ty with
  | .R_X86_64_64 => .ok (8, target % 2 ^ 64)
  | .R_X86_64_32 =>
      -- if target_addr != target_addr as u32 as u64 { overflow }
      if target % 2 ^ 64 ≠ target % 2 ^ 32 then
        .error (.RelocationFailed "Overflow in relocation type R_X86_64_32")
      else .ok (4, target % 2 ^ 64)
  | .R_X86_64_32S =>
      -- if (target_addr as i64) != ((target_addr as i32) as i64) { overflow }
      if toI64 target ≠ sext 32 target then
        .error (.RelocationFailed "Overflow in relocation type R_X86_64_32S")
      else .ok (4, target % 2 ^ 64)
  | .R_X86_64_PC32 | .R_X86_64_PLT32 =>
      -- target_addr = target_addr.wrapping_sub(location.0); no range check
      .ok (4, wsub64 target location)
  | .R_X86_64_PC64 => .ok (8, wsub64 target location)
  | _ => .error (.RelocationFailed "Unsupported relocation type")

/-- `X86_64RelocationType::apply_relocation`: compute size and value, check
that every byte at `location..location+size` is currently zero, then write the
value little-endian.  `R_X86_64_NONE` returns `Ok(())` immediately. -/
def x86ApplyRelocation (ty : X86RelocationType) (location target : Nat)
    (mem : Mem) : Except ModuleErr Mem :=
  if ty = .R_X86_64_NONE then .ok mem
  else
    match x86SizeValue ty location target with
    | .error e => .error e
    | .ok (size, value) =>
        -- if (memcmp(loc, &zero, size))
        if (List.range size).any (fun i => mem (location + i) != 0) then
          .error (.RelocationFailed
            "Invalid relocation target, existing value is nonzero")
        else .ok (writeLE mem location size value)

/-- The write size chosen by `apply_relocation` for each implemented x86-64
relocation kind (`0` for `R_X86_64_NONE` and for the unsupported kinds, which
never reach the write). -/
def x86WriteSize : X86RelocationType → Nat
  | .R_X86_64_64 => 8
  | .R_X86_64_32 => 4
  | .R_X86_64_32S => 4
  | .R_X86_64_PC32 => 4
  | .R_X86_64_PLT32 => 4
  | .R_X86_64_PC64 => 8
  | _ => 0

/-- The 32-bit word held in an `x86ApplyRelocation` result at `loc`,
when it succeeded. -/
def exceptMemWord (r : Except ModuleErr Mem) (loc n : Nat) : Option Nat :=
  match r with
  | .ok m => some (readLE m loc n)
  | .error _ => none

/-- For `t < 2^64`, the signed-32 fit test of `R_X86_64_32S`
(`(t as i64) == (t as i32 as i64)`) holds exactly on `[-2^31, 2^31)`. -/
theorem toI64_eq_sext32_iff (t : Nat) (ht : t < 2 ^ 64) :
    toI64 t = sext 32 t ↔ -(2 ^ 31 : Int) ≤ toI64 t ∧ toI64 t < 2 ^ 31 := by
  unfold toI64 sext
  rw [Nat.mod_eq_of_lt ht]
  have h32 : t % 2 ^ 32 ≤ t := Nat.mod_le _ _
  have h32' : t % 2 ^ 32 < 2 ^ 32 := Nat.mod_lt _ (by norm_num)
  have hmod : (2 ^ 32 : Nat) ∣ 2 ^ 64 - 2 ^ 32 := by norm_num
  split <;> split <;> push_cast <;> omega

/-- The four-byte zero precheck evaluates to `false` on all-zero target bytes. -/
theorem x86_any_eq_false (mem : Mem) (loc size : Nat)
    (hz : ∀ i, i < size → mem (loc + i) = 0) :
    (List.range size).any (fun i => mem (loc + i) != 0) = false := by
  rw [List.any_eq_false]
  intro i hi
  rw [List.mem_range] at hi
  simp [hz i hi]

/-- **C7.** `R_X86_64_32S` succeeds exactly when the target value `S+A` lies in
`[-2^31, 2^31)` and `R_X86_64_32` exactly when it lies in `[0, 2^32)`; outside
the respective range the engine returns a relocation-failed error without
writing (given that the four target bytes are zero, as the engine separately
requires). -/
theorem x86_32s_32_exact_range (loc target : Nat) (mem : Mem)
    (ht : target < 2 ^ 64)
    (hz : ∀ i, i < 4 → mem (loc + i) = 0) :
    (x86ApplyRelocation .R_X86_64_32S loc target mem
        = .ok (writeLE mem loc 4 target)
      ↔ -(2 ^ 31 : Int) ≤ toI64 target ∧ toI64 target < 2 ^ 31)
    ∧ (x86ApplyRelocation .R_X86_64_32 loc target mem
        = .ok (writeLE mem loc 4 target)
      ↔ target < 2 ^ 32)
    ∧ (¬(-(2 ^ 31 : Int) ≤ toI64 target ∧ toI64 target < 2 ^ 31) →
        x86ApplyRelocation .R_X86_64_32S loc target mem
          = .error (.RelocationFailed "Overflow in relocation type R_X86_64_32S"))
    ∧ (2 ^ 32 ≤ target →
        x86ApplyRelocation .R_X86_64_32 loc target mem
          = .error (.RelocationFailed "Overflow in relocation type R_X86_64_32")) := by
  have hz' : ¬ ∃ x, x < 4 ∧ ¬ mem (loc + x) = 0 := by
    push_neg
    exact hz
  have hmod : target % 18446744073709551616 = target :=
    Nat.mod_eq_of_lt (by omega)
  have hfit := toI64_eq_sext32_iff target ht
  have h32 : (target % 18446744073709551616 = target % 4294967296)
      ↔ target < 4294967296 := by omega
  refine ⟨?_, ?_, ?_, ?_⟩
  · constructor
    · intro h
      by_contra hc
      rw [← hfit] at hc
      simp [x86ApplyRelocation, x86SizeValue, hc] at h
    · intro h
      rw [← hfit] at h
      simp [x86ApplyRelocation, x86SizeValue, h, hz', hmod]
  · constructor
    · intro h
      by_contra hc
      have hne : ¬ target % 18446744073709551616 = target % 4294967296 := by
        rw [h32]; omega
      simp [x86ApplyRelocation, x86SizeValue, hne] at h
    · intro h
      have heq : target % 18446744073709551616 = target % 4294967296 := by
        rw [h32]; omega
      have hmod32 : target % 4294967296 = target := Nat.mod_eq_of_lt (by omega)
      simp [x86ApplyRelocation, x86SizeValue, heq, hz', hmod, hmod32]
  · intro h
    rw [← hfit] at h
    simp [x86ApplyRelocation, x86SizeValue, h]
  · intro h
    have hne : ¬ target % 18446744073709551616 = target % 4294967296 := by
      rw [h32]; omega
    simp [x86ApplyRelocation, x86SizeValue, hne]

/-- Witness for `x86_32s_32_exact_range` at `loc = 0`, `target = 3`,
all-zero memory. -/
theorem x86_32s_32_exact_range_witness :
    (3 < 2 ^ 64 ∧ ∀ i, i < 4 → (fun _ => 0 : Mem) (0 + i) = 0)
    ∧ ((x86ApplyRelocation .R_X86_64_32S 0 3 (fun _ => 0)
        = .ok (writeLE (fun _ => 0) 0 4 3)
      ↔ -(2 ^ 31 : Int) ≤ toI64 3 ∧ toI64 3 < 2 ^ 31)
    ∧ (x86ApplyRelocation .R_X86_64_32 0 3 (fun _ => 0)
        = .ok (writeLE (fun _ => 0) 0 4 3)
      ↔ (3 : Nat) < 2 ^ 32)
    ∧ (¬(-(2 ^ 31 : Int) ≤ toI64 3 ∧ toI64 3 < 2 ^ 31) →
        x86ApplyRelocation .R_X86_64_32S 0 3 (fun _ => 0)
          = .error (.RelocationFailed "Overflow in relocation type R_X86_64_32S"))
    ∧ (2 ^ 32 ≤ 3 →
        x86ApplyRelocation .R_X86_64_32 0 3 (fun _ => 0)
          = .error (.RelocationFailed "Overflow in relocation type R_X86_64_32"))) :=
  ⟨⟨by norm_num, fun i _ => rfl⟩,
    x86_32s_32_exact_range 0 3 (fun _ => 0) (by norm_num) (fun i _ => rfl)⟩

/-- **C1 (counterexample).** At `location = 0`, `target = 2^31`, all-zero
memory, the value `S+A-P = 2^31` does not fit a signed 32-bit integer, yet
`R_X86_64_PC32` succeeds and writes it — the engine performs no signed-32
check for `PC32`/`PLT32`, contradicting the claim that it fails there. -/
theorem x86_pc32_no_overflow_check_counterexample :
    exceptMemWord
        (x86ApplyRelocation .R_X86_64_PC32 0 (2 ^ 31) (fun _ => 0)) 0 4
      = some (2 ^ 31)
    ∧ toI64 (2 ^ 31) ≠ sext 32 (2 ^ 31) := by
  constructor
  · rfl
  · decide

/-- **C1 (amended).** For `R_X86_64_PC32` and `R_X86_64_PLT32` the engine
writes the 4-byte value `S+A-P` (wrapping 64-bit subtraction, truncated to 32
bits) and succeeds whenever the four existing bytes at the location are zero —
it performs no signed-32 range check on that value. -/
theorem x86_pc32_plt32_write_unchecked (ty : X86RelocationType)
    (hty : ty = .R_X86_64_PC32 ∨ ty = .R_X86_64_PLT32)
    (loc target : Nat) (mem : Mem)
    (hz : ∀ i, i < 4 → mem (loc + i) = 0) :
    x86ApplyRelocation ty loc target mem
      = .ok (writeLE mem loc 4 (wsub64 target loc)) := by
  have hany := x86_any_eq_false mem loc 4 hz
  rcases hty with h | h <;> subst h <;>
    simp [x86ApplyRelocation, x86SizeValue, hany]

/-- Witness for `x86_pc32_plt32_write_unchecked` at `PC32`, `loc = 0`,
`target = 5`, all-zero memory. -/
theorem x86_pc32_plt32_write_unchecked_witness :
    ((X86RelocationType.R_X86_64_PC32 = .R_X86_64_PC32
        ∨ X86RelocationType.R_X86_64_PC32 = .R_X86_64_PLT32)
      ∧ ∀ i, i < 4 → (fun _ => 0 : Mem) (0 + i) = 0)
    ∧ x86ApplyRelocation .R_X86_64_PC32 0 5 (fun _ => 0)
        = .ok (writeLE (fun _ => 0) 0 4 (wsub64 5 0)) :=
  ⟨⟨Or.inl rfl, fun i _ => rfl⟩,
    x86_pc32_plt32_write_unchecked .R_X86_64_PC32 (Or.inl rfl) 0 5
      (fun _ => 0) (fun i _ => rfl)⟩

/-- **C8.** For every implemented x86-64 relocation kind with a nonzero write
size, if any byte at `location..location+size` is nonzero the engine returns a
relocation-failed error and writes nothing (the `Except.error` result carries
no memory). -/
theorem x86_nonzero_target_rejected (ty : X86RelocationType)
    (hty : ty = .R_X86_64_64 ∨ ty = .R_X86_64_32 ∨ ty = .R_X86_64_32S
      ∨ ty = .R_X86_64_PC32 ∨ ty = .R_X86_64_PLT32 ∨ ty = .R_X86_64_PC64)
    (loc target : Nat) (mem : Mem) (i : Nat)
    (hi : i < x86WriteSize ty) (hnz : mem (loc + i) ≠ 0) :
    ∃ msg, x86ApplyRelocation ty loc target mem
      = .error (.RelocationFailed msg) := by
  have hex : ∀ size, i < size → ∃ x, x < size ∧ ¬ mem (loc + x) = 0 :=
    fun size hsz => ⟨i, hsz, hnz⟩
  rcases hty with h | h | h | h | h | h <;> subst h <;>
    simp only [x86WriteSize] at hi
  · exact ⟨"Invalid relocation target, existing value is nonzero",
      by simp [x86ApplyRelocation, x86SizeValue, hex 8 hi]⟩
  · by_cases hov : target % 18446744073709551616 = target % 4294967296
    · exact ⟨"Invalid relocation target, existing value is nonzero",
        by simp [x86ApplyRelocation, x86SizeValue, hov, hex 4 hi]⟩
    · exact ⟨"Overflow in relocation type R_X86_64_32",
        by simp [x86ApplyRelocation, x86SizeValue, hov]⟩
  · by_cases hov : toI64 target = sext 32 target
    · exact ⟨"Invalid relocation target, existing value is nonzero",
        by simp [x86ApplyRelocation, x86SizeValue, hov, hex 4 hi]⟩
    · exact ⟨"Overflow in relocation type R_X86_64_32S",
        by simp [x86ApplyRelocation, x86SizeValue, hov]⟩
  · exact ⟨"Invalid relocation target, existing value is nonzero",
      by simp [x86ApplyRelocation, x86SizeValue, hex 4 hi]⟩
  · exact ⟨"Invalid relocation target, existing value is nonzero",
      by simp [x86ApplyRelocation, x86SizeValue, hex 4 hi]⟩
  · exact ⟨"Invalid relocation target, existing value is nonzero",
      by simp [x86ApplyRelocation, x86SizeValue, hex 8 hi]⟩

/-- Witness for `x86_nonzero_target_rejected`: `R_X86_64_64` at `loc = 0`
with a memory whose byte 0 is `1`. -/
theorem x86_nonzero_target_rejected_witness :
    ((X86RelocationType.R_X86_64_64 = .R_X86_64_64
        ∨ X86RelocationType.R_X86_64_64 = .R_X86_64_32
        ∨ X86RelocationType.R_X86_64_64 = .R_X86_64_32S
        ∨ X86RelocationType.R_X86_64_64 = .R_X86_64_PC32
        ∨ X86RelocationType.R_X86_64_64 = .R_X86_64_PLT32
        ∨ X86RelocationType.R_X86_64_64 = .R_X86_64_PC64)
      ∧ 0 < x86WriteSize .R_X86_64_64
      ∧ (fun _ => 1 : Mem) (0 + 0) ≠ 0)
    ∧ ∃ msg, x86ApplyRelocation .R_X86_64_64 0 7 (fun _ => 1)
        = .error (.RelocationFailed msg) :=
  ⟨⟨Or.inl rfl, by norm_num [x86WriteSize], by norm_num⟩,
    x86_nonzero_target_rejected .R_X86_64_64 (Or.inl rfl) 0 7
      (fun _ => 1) 0 (by norm_num [x86WriteSize]) (by norm_num)⟩

/-! ## Relocation driver, from `src/kmod-loader/src/loader.rs` -/

/-- ELF `sh_type` of a RELA (explicit-addend) relocation section. -/
def SHT_RELA : Nat := 4

/-- ELF `sh_type` of a REL (addend-in-place) relocation section. -/
def SHT_REL : Nat := 9

/-- The fields of a `goblin::elf::SectionHeader` consulted by the skipping
logic of `ModuleLoader::apply_relocations`, together with the section's
resolved name (`shdr_strtab.get_at(sh_name)`; `none` when the lookup fails).
The fields feeding the rela-entry parsing (`sh_offset`, `sh_size`,
`sh_entsize`) are abstracted into the `archApply` argument below. -/
structure SectionHeader where
  nameStr : Option String
  sh_type : Nat
  sh_flags : Nat
  sh_info : Nat
  deriving DecidableEq, Repr

instance : Inhabited SectionHeader := ⟨⟨none, 0, 0, 0⟩⟩

/-- One iteration of the `apply_relocations` loop on section header `shdr`
(`continue` is `ok ()`): resolve the section name, skip when `sh_info` is out
of range, when the target section is not `SHF_ALLOC` (`sh_flags` bit 1), or
when `sh_type ≠ SHT_RELA`; otherwise resolve the target section's name and
dispatch to the per-machine `apply_relocate_add`, abstracted as
`archApply shdr`. -/
def applyRelocationsOne (sechdrs : List SectionHeader)
    (archApply : SectionHeader → Except ModuleErr Unit)
    (shdr : SectionHeader) : Except ModuleErr Unit :=
  match shdr.nameStr with
  | none => .error .InvalidElf
  | some _ =>
    if sechdrs.length ≤ shdr.sh_info then .ok ()
    else if (sechdrs.getD shdr.sh_info default).sh_flags / 2 % 2 = 0 then .ok ()
    else if shdr.sh_type ≠ SHT_RELA then .ok ()
    else
      match (sechdrs.getD shdr.sh_info default).nameStr with
      | none => .error .InvalidElf
      | some _ => archApply shdr

/-- The `for` loop of `apply_relocations` over the iteration list `l`,
aborting at the first error. -/
def applyRelocationsAux (sechdrs : List SectionHeader)
    (archApply : SectionHeader → Except ModuleErr Unit) :
    List SectionHeader → Except ModuleErr Unit
  | [] => .ok ()
  | shdr :: rest =>
      match applyRelocationsOne sechdrs archApply shdr with
      | .error e => .error e
      | .ok _ => applyRelocationsAux sechdrs archApply rest

/-- `ModuleLoader::apply_relocations`: iterate the loop body over every
section header. -/
def applyRelocations (sechdrs : List SectionHeader)
    (archApply : SectionHeader → Except ModuleErr Unit) :
    Except ModuleErr Unit :=
  applyRelocationsAux sechdrs archApply sechdrs

/-- **C2 (counterexample).** An ELF whose only relocation section is of type
`SHT_REL` (named, targeting an allocatable section) loads without error —
even with an arch engine that rejects everything, showing the engine is never
consulted: `SHT_REL` sections are silently ignored, not rejected. -/
theorem sht_rel_not_rejected_counterexample :
    applyRelocations
        [⟨some ".text", 1, 6, 0⟩, ⟨some ".rel.text", SHT_REL, 0, 0⟩]
        (fun _ => .error (.RelocationFailed "engine invoked"))
      = .ok () := by
  rfl

/-- **C2 (amended).** A `SHT_REL` relocation section is silently skipped: its
loop iteration succeeds without consulting the arch engine (for any engine),
and a module whose section headers are all named and contain no `SHT_RELA`
section passes `apply_relocations` without error. -/
theorem sht_rel_silently_skipped (sechdrs : List SectionHeader)
    (archApply : SectionHeader → Except ModuleErr Unit)
    (shdr : SectionHeader) (s : String)
    (hname : shdr.nameStr = some s) (hty : shdr.sh_type = SHT_REL)
    (hall : ∀ t ∈ sechdrs, (∃ ns, t.nameStr = some ns) ∧ t.sh_type ≠ SHT_RELA) :
    applyRelocationsOne sechdrs archApply shdr = .ok ()
    ∧ applyRelocations sechdrs archApply = .ok () := by
  constructor
  · simp only [applyRelocationsOne, hname, hty]
    split_ifs with h1 h2 h3
    · rfl
    · rfl
    · rfl
    · exact absurd (by decide : SHT_REL ≠ SHT_RELA) h3
  · have haux : ∀ l, (∀ t ∈ l, (∃ ns, t.nameStr = some ns)
        ∧ t.sh_type ≠ SHT_RELA) →
        applyRelocationsAux sechdrs archApply l = .ok () := by
      intro l
      induction l with
      | nil => intro _; rfl
      | cons hd tl ih =>
          intro hl
          obtain ⟨⟨ns, hns⟩, hnt⟩ := hl hd (List.mem_cons_self hd tl)
          have hone : applyRelocationsOne sechdrs archApply hd = .ok () := by
            simp only [applyRelocationsOne, hns]
            split_ifs with h1 h2 <;> simp [hnt]
          rw [applyRelocationsAux, hone]
          exact ih (fun t ht => hl t (List.mem_cons_of_mem hd ht))
    exact haux sechdrs hall

/-- Witness for `sht_rel_silently_skipped` on the concrete two-section list of
the counterexample. -/
theorem sht_rel_silently_skipped_witness :
    ((⟨some ".rel.text", SHT_REL, 0, 0⟩ : SectionHeader).nameStr
        = some ".rel.text"
      ∧ (⟨some ".rel.text", SHT_REL, 0, 0⟩ : SectionHeader).sh_type = SHT_REL
      ∧ ∀ t ∈ [(⟨some ".text", 1, 6, 0⟩ : SectionHeader),
          ⟨some ".rel.text", SHT_REL, 0, 0⟩],
          (∃ ns, t.nameStr = some ns) ∧ t.sh_type ≠ SHT_RELA)
    ∧ (applyRelocationsOne
          [⟨some ".text", 1, 6, 0⟩, ⟨some ".rel.text", SHT_REL, 0, 0⟩]
          (fun _ => .ok ()) ⟨some ".rel.text", SHT_REL, 0, 0⟩ = .ok ()
      ∧ applyRelocations
          [⟨some ".text", 1, 6, 0⟩, ⟨some ".rel.text", SHT_REL, 0, 0⟩]
          (fun _ => .ok ()) = .ok ()) := by
  have hall : ∀ t ∈ [(⟨some ".text", 1, 6, 0⟩ : SectionHeader),
      ⟨some ".rel.text", SHT_REL, 0, 0⟩],
      (∃ ns, t.nameStr = some ns) ∧ t.sh_type ≠ SHT_RELA := by
    intro t ht
    simp only [List.mem_cons, List.not_mem_nil, or_false] at ht
    rcases ht with rfl | rfl
    · exact ⟨⟨".text", rfl⟩, by decide⟩
    · exact ⟨⟨".rel.text", rfl⟩, by decide⟩
  exact ⟨⟨rfl, rfl, hall⟩,
    sht_rel_silently_skipped _ _ _ ".rel.text" rfl rfl hall⟩

/-! ## Module owner `init`/`exit`, from `src/kmod-loader/src/loader.rs`
(`ModuleOwner::call_init`/`call_exit`) and `src/kmod/src/module.rs`
(`Module::take_init_fn`/`take_exit_fn`). -/

/-- The `init`/`exit` entry points captured in the `this_module` record
(`kbindings::module`, wrapped by `kmod::Module`): each is an optional extern
function, modelled abstractly by identifiers of types `α` and `β`. -/
structure Module (α β : Type) where
  init : Option α
  exit : Option β

/-- `Module::take_init_fn`: `Option::take` on the `init` field — returns the
current value and leaves `none` behind. -/
def Module.take_init_fn (m : Module α β) : Option α × Module α β :=
  (m.init, { m with init := none })

/-- `Module::take_exit_fn`: `Option::take` on the `exit` field. -/
def Module.take_exit_fn (m : Module α β) : Option β × Module α β :=
  (m.exit, { m with exit := none })

/-- The part of `ModuleOwner` relevant to `call_init`/`call_exit`. -/
structure ModuleOwner (α β : Type) where
  module : Module α β

/-- `ModuleOwner::call_init`: observable effect of one call — the updated
owner, the invoked function (if any) and the returned result.  `run f` is the
`i32` produced by invoking the captured extern function `f`.  When the entry
point was already taken, nothing is invoked and `Err(InvalidOperation)` is
returned. -/
def ModuleOwner.call_init (run : α → Int) (o : ModuleOwner α β) :
    ModuleOwner α β × Option α × Except ModuleErr Int :=
  match h : o.module.take_init_fn with
  | (some f, m) => ({ module := m }, some f, .ok (run f))
  | (none, m) => ({ module := m }, none, .error .InvalidOperation)

/-- `ModuleOwner::call_exit`: observable effect of one call — the updated
owner, the invoked function (if any) and the reported error.  The Rust
signature returns `()`: when the entry point was already taken it only logs a
warning, so the reported-error component is always `none`. -/
def ModuleOwner.call_exit (o : ModuleOwner α β) :
    ModuleOwner α β × Option β × Option ModuleErr :=
  match o.module.take_exit_fn with
  | (some f, m) => ({ module := m }, some f, none)
  | (none, m) => ({ module := m }, none, none)

/-- **C6 (counterexample).** For a module whose `exit` entry point is
captured, the second `call_exit` reports no error at all (its Rust signature
has no error channel; it only logs a warning), contradicting the claim that a
second attempt reports an invalid-operation error. -/
theorem call_exit_second_attempt_no_error_counterexample :
    ¬ ((((ModuleOwner.mk (Module.mk (some 1) (some 2)) :
          ModuleOwner Nat Nat).call_exit).1.call_exit).2.2
        = some ModuleErr.InvalidOperation) := by
  decide

/-- **C6 (amended).** `init` is consumable at most once: the first `call_init`
invokes the captured function and returns its result, and a second attempt
invokes nothing and reports `InvalidOperation`.  `exit` is likewise invoked at
most once — the first `call_exit` invokes the captured function, a second
attempt invokes nothing — but the second attempt reports no error (it only
logs a warning). -/
theorem init_exit_consumed_once {α β : Type} (run : α → Int)
    (o : ModuleOwner α β) (f : α) (g : β)
    (hi : o.module.init = some f) (he : o.module.exit = some g) :
    ((o.call_init run).2.1 = some f
      ∧ (o.call_init run).2.2 = .ok (run f)
      ∧ ((o.call_init run).1.call_init run).2.1 = none
      ∧ ((o.call_init run).1.call_init run).2.2 = .error .InvalidOperation)
    ∧ (o.call_exit.2.1 = some g
      ∧ (o.call_exit.1.call_exit).2.1 = none
      ∧ (o.call_exit.1.call_exit).2.2 = none) := by
  obtain ⟨⟨i, e⟩⟩ := o
  simp only [Module.take_init_fn, Module.take_exit_fn] at hi he ⊢
  subst hi he
  simp [ModuleOwner.call_init, ModuleOwner.call_exit,
    Module.take_init_fn, Module.take_exit_fn]

/-- Witness for `init_exit_consumed_once` on a concrete owner. -/
theorem init_exit_consumed_once_witness :
    ((ModuleOwner.mk (Module.mk (some 1) (some 2)) :
        ModuleOwner Nat Nat).module.init = some 1
      ∧ (ModuleOwner.mk (Module.mk (some 1) (some 2)) :
        ModuleOwner Nat Nat).module.exit = some 2)
    ∧ (((ModuleOwner.call_init (fun n => (n : Int))
          (ModuleOwner.mk (Module.mk (some 1) (some 2)))).2.1 = some 1
        ∧ (ModuleOwner.call_init (fun n => (n : Int))
          (ModuleOwner.mk (Module.mk (some 1) (some 2)))).2.2
            = .ok ((fun n => (n : Int)) 1)
        ∧ (ModuleOwner.call_init (fun n => (n : Int))
            (ModuleOwner.call_init (fun n => (n : Int))
              (ModuleOwner.mk (Module.mk (some 1) (some 2)))).1).2.1 = none
        ∧ (ModuleOwner.call_init (fun n => (n : Int))
            (ModuleOwner.call_init (fun n => (n : Int))
              (ModuleOwner.mk (Module.mk (some 1) (some 2)))).1).2.2
            = .error .InvalidOperation)
      ∧ ((ModuleOwner.mk (Module.mk (some 1) (some 2)) :
            ModuleOwner Nat Nat).call_exit.2.1 = some 2
        ∧ ((ModuleOwner.mk (Module.mk (some 1) (some 2)) :
            ModuleOwner Nat Nat).call_exit.1.call_exit).2.1 = none
        ∧ ((ModuleOwner.mk (Module.mk (some 1) (some 2)) :
            ModuleOwner Nat Nat).call_exit.1.call_exit).2.2 = none)) :=
  ⟨⟨rfl, rfl⟩,
    init_exit_consumed_once (fun n => (n : Int))
      (ModuleOwner.mk (Module.mk (some 1) (some 2))) 1 2 rfl rfl⟩

/-! ## Parameter argument parser, from `src/kmod-loader/src/param.rs` -/

/-- The `axerrno::LinuxError` codes surfaced by the parameter parser. -/
inductive LinuxError : Type
  | EINVAL
  | ENOENT
  | ENOSPC
  | ERANGE
  | other (code : Int)
  deriving DecidableEq, Repr

/-- `LinuxError::try_from` on a positive errno code
(`2 = ENOENT`, `22 = EINVAL`, `28 = ENOSPC`, `34 = ERANGE`). -/
def linuxErrorOfCode (c : Int) : LinuxError :=
  if c = 2 then .ENOENT
  else if c = 22 then .EINVAL
  else if c = 28 then .ENOSPC
  else if c = 34 then .ERANGE
  else .other c

/-- `ParamOpsFlags::KERNEL_PARAM_OPS_FL_NOARG = 1 << 0`,
from `src/kapi/src/param.rs`. -/
def KERNEL_PARAM_OPS_FL_NOARG : Nat := 1

/-- A declared kernel parameter as consulted by `parse_one`: the name bytes of
`raw_name()`, the `level`, the `flags` word of its `kernel_param_ops`, and the
`set` callback — modelled as a pure function from the optional value bytes to
the returned `c_int` (`0` or `-errno`). -/
structure KernelParam where
  name : List Nat
  level : Int
  opsFlags : Nat
  set : Option (List Nat) → Int

/-- `dash2underscore`. -/
def dash2underscore (c : Nat) : Nat := if c = 45 then 95 else c

/-- `parameqn(a, b, n)`: both strings at least `n` bytes long and equal on
their first `n` bytes under `-`/`_` folding. -/
def parameqn (a b : List Nat) (n : Nat) : Bool :=
  if a.length < n ∨ b.length < n then false
  else (List.range n).all
    (fun i => dash2underscore (a.getD i 0) == dash2underscore (b.getD i 0))

/-- `parameq(a, b) = parameqn(a, b, a.len())`; `parse_one` calls it as
`parameq(declared_name, supplied_key)`. -/
def parameq (a b : List Nat) : Bool := parameqn a b a.length

/-- `parse_one`: walk the declared parameters, dispatch to the first whose
name matches the supplied key.  Returns the `Result` together with the list
of setter invocations `(declared name, value)` performed, so that "the setter
was not invoked" is observable. -/
def parse_one (param : List Nat) (val : Option (List Nat))
    (params : List KernelParam) (minLevel maxLevel : Int) :
    Except LinuxError Unit × List (List Nat × Option (List Nat)) :=
  match params with
  | [] => (.error .ENOENT, [])
  | kp :: rest =>
    if parameq kp.name param then
      if kp.level < minLevel ∨ maxLevel < kp.level then (.ok (), [])
      else if val = none ∧ kp.opsFlags % 2 = 0 then (.error .EINVAL, [])
      else
        let res := kp.set val
        if res < 0 then (.error (linuxErrorOfCode (-res)), [(kp.name, val)])
        else (.ok (), [(kp.name, val)])
    else parse_one param val rest minLevel maxLevel

/-- `u8::is_ascii_whitespace`. -/
def isSpace (b : Nat) : Bool :=
  b == 32 || b == 9 || b == 10 || b == 12 || b == 13

/-- `skip_spaces`. -/
def skip_spaces (l : List Nat) : List Nat := l.dropWhile isSpace

/-- The scanning `while` loop of `next_arg`: starting from `idx`, stop at NUL
or at unquoted whitespace, recording the position of the first `=` and
toggling the in-quote flag at every `"`; returns the stop index and the
recorded `=` position.  The fuel is set by the caller to exceed the buffer
length, which the scan never outruns (indices beyond the buffer read as NUL). -/
def nextArgScan (buf : List Nat) (idx : Nat) (inq : Bool) (eqPos : Option Nat) :
    Nat → Nat × Option Nat
  | 0 => (idx, eqPos)
  | fuel + 1 =>
    let b := buf.getD idx 0
    if b = 0 then (idx, eqPos)
    else if isSpace b ∧ inq = false then (idx, eqPos)
    else
      nextArgScan buf (idx + 1)
        (if b = 34 then !inq else inq)
        (if eqPos = none ∧ b = 61 then some idx else eqPos) fuel

/-- `next_arg`: carve the next `key[=value]` token out of the NUL-terminated
buffer.  The in-place NUL surgery of the Rust code is modelled by `List.set`;
the returned key and value are the byte runs read from the mutated buffer up
to the next NUL, as `CStr::from_ptr` does. -/
def next_arg (args0 : List Nat) : List Nat × Option (List Nat) × List Nat :=
  let quoted := args0.getD 0 0 = 34
  let args := if quoted then args0.drop 1 else args0
  let scan := nextArgScan args 0 quoted none (args.length + 1)
  let idx := scan.1
  let step : List Nat × Option Nat :=
    match scan.2 with
    | some e =>
      let b1 := args.set e 0
      let vi := e + 1
      if b1.getD vi 0 = 34 then
        (if b1.getD (idx - 1) 0 = 34 then b1.set (idx - 1) 0 else b1,
          some (vi + 1))
      else (b1, some vi)
    | none => (args, none)
  let b2 := step.1
  let b3 := if quoted ∧ 0 < idx ∧ b2.getD (idx - 1) 0 = 34 then
    b2.set (idx - 1) 0 else b2
  let final := if b3.getD idx 0 ≠ 0 then b3.set idx 0 else b3
  let rest := if b3.getD idx 0 ≠ 0 then final.drop (idx + 1) else final.drop idx
  (final.takeWhile (· != 0),
    step.2.map (fun vi => (final.drop vi).takeWhile (· != 0)),
    skip_spaces rest)

/-- The `while args[0] != '\0'` loop of `parse_args`: extract the next token,
stop at `--` (returning the leftover without its trailing NUL), otherwise
dispatch through `parse_one`, aborting the whole parse on any error.  Fuel is
set by the caller above the buffer length. -/
def parseArgsLoop (params : List KernelParam) (minLevel maxLevel : Int) :
    Nat → List Nat → Except LinuxError (List Nat)
  | 0, _ => .error (.other 0)
  | fuel + 1, buf =>
    if buf.getD 0 0 = 0 then .ok []
    else
      let t := next_arg buf
      if t.2.1 = none ∧ t.1 = [45, 45] then
        .ok (if t.2.2.getLast? = some 0 then t.2.2.dropLast else t.2.2)
      else
        match (parse_one t.1 t.2.1 params minLevel maxLevel).1 with
        | .error e => .error e
        | .ok _ => parseArgsLoop params minLevel maxLevel fuel t.2.2

/-- `parse_args`: `args` is the NUL-terminated byte string of the argument
`CString` (`into_bytes_with_nul`). -/
def parse_args (args : List Nat) (params : List KernelParam)
    (minLevel maxLevel : Int) : Except LinuxError (List Nat) :=
  let a := skip_spaces args
  if a.isEmpty then .ok []
  else parseArgsLoop params minLevel maxLevel (a.length + 1) a

/-- **C9.** (i) A token whose key matches no declared parameter makes
`parse_one` fail with `ENOENT` and invoke no setter; (ii) a token with no
value dispatched to a matched, level-eligible parameter whose `NOARG` flag is
unset makes `parse_one` fail with `EINVAL` without invoking the setter;
(iii) inside `parse_args`, a token on which `parse_one` reports `ENOENT`
aborts the whole parse with `ENOENT`. -/
theorem parse_unknown_enoent_missing_value_einval :
    (∀ (param : List Nat) (val : Option (List Nat))
        (params : List KernelParam) (minLevel maxLevel : Int),
      (∀ kp ∈ params, parameq kp.name param = false) →
      parse_one param val params minLevel maxLevel = (.error .ENOENT, []))
    ∧ (∀ (param : List Nat) (pre post : List KernelParam) (kp : KernelParam)
        (minLevel maxLevel : Int),
      (∀ p ∈ pre, parameq p.name param = false) →
      parameq kp.name param = true →
      minLevel ≤ kp.level → kp.level ≤ maxLevel →
      kp.opsFlags % 2 = 0 →
      parse_one param none (pre ++ kp :: post) minLevel maxLevel
        = (.error .EINVAL, []))
    ∧ (∀ (fuel : Nat) (buf : List Nat) (params : List KernelParam)
        (minLevel maxLevel : Int),
      buf.getD 0 0 ≠ 0 →
      ¬((next_arg buf).2.1 = none ∧ (next_arg buf).1 = [45, 45]) →
      (parse_one (next_arg buf).1 (next_arg buf).2.1 params
          minLevel maxLevel).1 = .error .ENOENT →
      parseArgsLoop params minLevel maxLevel (fuel + 1) buf
        = .error .ENOENT) := by
  refine ⟨?_, ?_, ?_⟩
  · intro param val params minLevel maxLevel hall
    induction params with
    | nil => rfl
    | cons kp rest ih =>
        have hkp := hall kp (List.mem_cons_self kp rest)
        rw [parse_one, if_neg (by simp [hkp])]
        exact ih (fun p hp => hall p (List.mem_cons_of_mem kp hp))
  · intro param pre post kp minLevel maxLevel hpre hkp hmin hmax hflag
    induction pre with
    | nil =>
        rw [List.nil_append, parse_one, if_pos (by simp [hkp]),
          if_neg (by omega), if_pos (by simp [hflag])]
    | cons p ps ih =>
        have hp := hpre p (List.mem_cons_self p ps)
        rw [List.cons_append, parse_one, if_neg (by simp [hp])]
        exact ih (fun q hq => hpre q (List.mem_cons_of_mem p hq))
  · intro fuel buf params minLevel maxLevel hnz hndash hone
    rw [parseArgsLoop, if_neg hnz, if_neg hndash, hone]

/-- Witness for `parse_unknown_enoent_missing_value_einval`: (i) key `z`
against a declared parameter `t`; (ii) key `t` with no value against declared
`t` with `NOARG` unset; (iii) the buffer `"x=1\0"` parsed against an empty
parameter list. -/
theorem parse_unknown_enoent_missing_value_einval_witness :
    ((∀ kp ∈ [(⟨[116], 0, 0, fun _ => 0⟩ : KernelParam)],
        parameq kp.name [122] = false)
      ∧ parse_one [122] (some [49]) [⟨[116], 0, 0, fun _ => 0⟩] 0 0
          = (.error .ENOENT, []))
    ∧ ((∀ p ∈ ([] : List KernelParam), parameq p.name [116] = false)
      ∧ parameq (⟨[116], 0, 0, fun _ => 0⟩ : KernelParam).name [116] = true
      ∧ parse_one [116] none
          ([] ++ (⟨[116], 0, 0, fun _ => 0⟩ : KernelParam) :: []) 0 0
          = (.error .EINVAL, []))
    ∧ (([120, 61, 49, 0] : List Nat).getD 0 0 ≠ 0
      ∧ (parse_one (next_arg [120, 61, 49, 0]).1
            (next_arg [120, 61, 49, 0]).2.1 [] 0 0).1 = .error .ENOENT
      ∧ parseArgsLoop [] 0 0 (3 + 1) [120, 61, 49, 0]
          = .error .ENOENT) := by
  have h1 := parse_unknown_enoent_missing_value_einval.1 [122] (some [49])
    [⟨[116], 0, 0, fun _ => 0⟩] 0 0 (by intro kp hkp; fin_cases hkp; decide)
  have h2 := parse_unknown_enoent_missing_value_einval.2.1 [116] [] []
    ⟨[116], 0, 0, fun _ => 0⟩ 0 0 (by intro p hp; cases hp) (by decide)
    (by decide) (by decide) (by decide)
  have h3 := parse_unknown_enoent_missing_value_einval.2.2 3
    [120, 61, 49, 0] [] 0 0 (by decide) (by decide) rfl
  exact ⟨⟨(by intro kp hkp; fin_cases hkp; decide), h1⟩,
    ⟨(by intro p hp; cases hp), (by decide), h2⟩,
    ⟨(by decide), rfl, h3⟩⟩

/-- **C10.** Name matching is prefix-based: `parameq(name, key)` holds exactly
when the key is at least as long as the declared name and agrees with it on
the first `len(name)` bytes under `-`/`_` folding; consequently the supplied
key `test_int` is dispatched to a declared parameter named `test` (its setter
runs) instead of being reported unknown. -/
theorem parameq_prefix_match :
    (∀ name key : List Nat,
      parameq name key = true
        ↔ name.length ≤ key.length
          ∧ ∀ i, i < name.length →
              dash2underscore (key.getD i 0) = dash2underscore (name.getD i 0))
    ∧ parse_one [116, 101, 115, 116, 95, 105, 110, 116] (some [49])
        [⟨[116, 101, 115, 116], 0, 0, fun _ => 0⟩] 0 0
        = (.ok (), [([116, 101, 115, 116], some [49])]) := by
  constructor
  · intro name key
    constructor
    · intro h
      unfold parameq parameqn at h
      split at h
      · exact absurd h (by simp)
      · next hc =>
          push_neg at hc
          simp only [List.all_eq_true, List.mem_range, beq_iff_eq] at h
          exact ⟨hc.2, fun i hi => (h i hi).symm⟩
    · rintro ⟨hle, hall⟩
      unfold parameq parameqn
      rw [if_neg (by omega)]
      simp only [List.all_eq_true, List.mem_range, beq_iff_eq]
      exact fun i hi => (hall i hi).symm
  · rfl

/-- Witness for `parameq_prefix_match`: the characterization applied to the
declared name `t` and the strictly longer key `t_`. -/
theorem parameq_prefix_match_witness :
    parameq [116] [116, 95] = true
      ↔ ([116] : List Nat).length ≤ ([116, 95] : List Nat).length
        ∧ ∀ i, i < ([116] : List Nat).length →
            dash2underscore (([116, 95] : List Nat).getD i 0)
              = dash2underscore (([116] : List Nat).getD i 0) :=
  parameq_prefix_match.1 [116] [116, 95]

/-! ## LoongArch relocation engine,
from `src/kmod-loader/src/arch/loongarch64/mod.rs` -/

/-- `Loongarch64RelocationType` (the subset of constructors reachable through
`apply_relocation`; every other numbered kind of the source enum falls into
the dispatcher's `unimplemented!` arm, represented here by `UNIMPLEMENTED`). -/
inductive LaRelocationType : Type
  | R_LARCH_NONE
  | R_LARCH_32
  | R_LARCH_64
  | R_LARCH_MARK_LA
  | R_LARCH_MARK_PCREL
  | R_LARCH_SOP_PUSH_PCREL
  | R_LARCH_SOP_PUSH_ABSOLUTE
  | R_LARCH_SOP_PUSH_DUP
  | R_LARCH_SOP_PUSH_PLT_PCREL
  | R_LARCH_SOP_SUB
  | R_LARCH_SOP_SL
  | R_LARCH_SOP_SR
  | R_LARCH_SOP_ADD
  | R_LARCH_SOP_AND
  | R_LARCH_SOP_IF_ELSE
  | R_LARCH_SOP_POP_32_S_10_5
  | R_LARCH_SOP_POP_32_U_10_12
  | R_LARCH_SOP_POP_32_S_10_12
  | R_LARCH_SOP_POP_32_S_10_16
  | R_LARCH_SOP_POP_32_S_10_16_S2
  | R_LARCH_SOP_POP_32_S_5_20
  | R_LARCH_SOP_POP_32_S_0_5_10_16_S2
  | R_LARCH_SOP_POP_32_S_0_10_10_16_S2
  | R_LARCH_SOP_POP_32_U
  | R_LARCH_ADD32
  | R_LARCH_ADD64
  | R_LARCH_SUB8
  | R_LARCH_SUB16
  | R_LARCH_SUB24
  | R_LARCH_SUB32
  | R_LARCH_SUB64
  | R_LARCH_B26
  | R_LARCH_PCALA_HI20
  | R_LARCH_PCALA_LO12
  | R_LARCH_PCALA64_LO20
  | R_LARCH_PCALA64_HI12
  | R_LARCH_GOT_PC_HI20
  | R_LARCH_GOT_PC_LO12
  | R_LARCH_32_PCREL
  | R_LARCH_64_PCREL
  | UNIMPLEMENTED
  deriving DecidableEq, Repr

/-- `RELA_STACK_DEPTH`. -/
def RELA_STACK_DEPTH : Nat := 16

/-- `SZ_128M = 0x08000000`. -/
def SZ_128M : Int := 0x08000000

/-- `signed_imm_check(value, bits)`. -/
def signed_imm_check (value : Int) (bits : Nat) : Bool :=
  decide (-(2 ^ (bits - 1) : Int) ≤ value ∧ value < 2 ^ (bits - 1))

/-- `unsigned_imm_check(value, bits)` (the `value` is the `u64` bit pattern). -/
def unsigned_imm_check (value : Nat) (bits : Nat) : Bool :=
  decide (value % 2 ^ 64 < 2 ^ bits)

/-- The low `w` bits of a (possibly negative) integer, as a `Nat`
(models Rust truncating casts such as `z as u32`). -/
def intLow (w : Nat) (z : Int) : Nat := (z % (2 ^ w : Nat)).toNat

/-- `rela_stack_push`: the live stack contents (top first); pushing beyond
`RELA_STACK_DEPTH` is a stack-overflow error. -/
def rela_stack_push (stack : List Int) (value : Int) :
    Except ModuleErr (List Int) :=
  if RELA_STACK_DEPTH ≤ stack.length then
    .error (.RelocationFailed "Relocation stack overflow")
  else .ok (value :: stack)

/-- `rela_stack_pop`. -/
def rela_stack_pop (stack : List Int) : Except ModuleErr (Int × List Int) :=
  match stack with
  | [] => .error (.RelocationFailed "Relocation stack underflow")
  | v :: rest => .ok (v, rest)

/-- Modelled from the spec: the loongarch instruction bit-field helper
(the source file `src/kmod-loader/src/arch/loongarch64/inst.rs` defining the
`*_format` bitfield structs is not among the provided sources).  Per the spec
format table, `set_immediate`-style setters replace the `width`-bit field at
`lsb` of the 32-bit word with the low `width` bits of `val` (the source masks
the value, e.g. `opr1 as u32 & 0xFFF`, before storing). -/
def setField (inst lsb width val : Nat) : Nat :=
  inst % 2 ^ lsb + val % 2 ^ width * 2 ^ lsb
    + inst / 2 ^ (lsb + width) * 2 ^ (lsb + width)

/-- The `width`-bit field of `inst` at bit `lsb`. -/
def getField (inst lsb width : Nat) : Nat := inst / 2 ^ lsb % 2 ^ width

/-- Modelled from the spec: `reg0i26_format` — `imm_l` at bits 25:10,
`imm_h` at bits 9:0. -/
def reg0i26_set_imm_l (inst v : Nat) : Nat := setField inst 10 16 v

/-- Modelled from the spec: `reg0i26_format`, high immediate field. -/
def reg0i26_set_imm_h (inst v : Nat) : Nat := setField inst 0 10 v

/-- Modelled from the spec: `reg1i20_format` — `imm` at bits 24:5. -/
def reg1i20_set_immediate (inst v : Nat) : Nat := setField inst 5 20 v

/-- Modelled from the spec: `reg1i21_format` — `imm_l` at bits 25:10. -/
def reg1i21_set_imm_l (inst v : Nat) : Nat := setField inst 10 16 v

/-- Modelled from the spec: `reg1i21_format` — `imm_h` at bits 4:0. -/
def reg1i21_set_imm_h (inst v : Nat) : Nat := setField inst 0 5 v

/-- Modelled from the spec: `reg2i12_format` — `imm` at bits 21:10. -/
def reg2i12_set_immediate (inst v : Nat) : Nat := setField inst 10 12 v

/-- Modelled from the spec: `reg2i16_format` — `imm` at bits 25:10. -/
def reg2i16_set_immediate (inst v : Nat) : Nat := setField inst 10 16 v

/-- `apply_r_larch_b26` (wrapping `i64` arithmetic as in release builds). -/
def apply_r_larch_b26 (location address : Nat) (mem : Mem) : Outcome Mem :=
  let offset := wrap64 (toI64 address - toI64 location)
  if offset < -SZ_128M ∨ SZ_128M ≤ offset then
    .err (.RelocationFailed "R_LARCH_B26 relocation out of range")
  else if offset % 4 ≠ 0 then
    .err (.RelocationFailed "jump offset unaligned, dangerous R_LARCH_B26")
  else if ¬ signed_imm_check offset 28 then
    .err (.RelocationFailed "jump offset overflow, dangerous R_LARCH_B26")
  else
    let instruction := readLE mem location 4
    let offset2 := Int.fdiv offset 4
    let inst1 := reg0i26_set_imm_l instruction (intLow 32 offset2)
    let inst2 := reg0i26_set_imm_h inst1 (intLow 32 offset2 / 2 ^ 16)
    .ok (writeLE mem location 4 inst2)

/-- The rounded page `(S+A+0x800) & ~0xfff` of `apply_r_larch_pcala`
(wrapping `u64` addition). -/
def pcalaLeftPage (address : Nat) : Nat :=
  (address % 2 ^ 64 + 0x800) % 2 ^ 64
    - (address % 2 ^ 64 + 0x800) % 2 ^ 64 % 0x1000

/-- The page `P & ~0xfff` of `apply_r_larch_pcala`. -/
def pcalaRightPage (location : Nat) : Nat :=
  location % 2 ^ 64 - location % 2 ^ 64 % 0x1000

/-- `offset_hi20` of `apply_r_larch_pcala`: the low 32 bits of the `i64` page
difference, sign-extended (`as i32 as i64` in the source). -/
def pcalaOffsetHi20 (location address : Nat) : Int :=
  sext 32 (intLow 32
    ((pcalaLeftPage address : Int) - (pcalaRightPage location : Int)))

/-- `anchor` of `apply_r_larch_pcala` (wrapping `i64` addition). -/
def pcalaAnchor (location address : Nat) : Int :=
  wrap64 (toI64 (pcalaRightPage location) + pcalaOffsetHi20 location address)

/-- `offset_rem` of `apply_r_larch_pcala` (wrapping `i64` subtraction). -/
def pcalaOffsetRem (location address : Nat) : Int :=
  wrap64 (toI64 address - pcalaAnchor location address)

/-- `apply_r_larch_pcala`: the PCALA page-pair kinds.  `offset_hi20` is the
sign-extended low 32 bits of `((S+A+0x800) & ~0xfff) - (P & ~0xfff)`. -/
def apply_r_larch_pcala (ty : LaRelocationType) (location address : Nat)
    (mem : Mem) : Outcome Mem :=
  let inst := readLE mem location 4
  let offset_hi20 : Int := pcalaOffsetHi20 location address
  let offset_rem : Int := pcalaOffsetRem location address
  match ty with
  | .R_LARCH_PCALA_LO12 =>
      .ok (writeLE mem location 4 (reg2i12_set_immediate inst (address % 2 ^ 64)))
  | .R_LARCH_PCALA_HI20 =>
      let a := Int.fdiv offset_hi20 (2 ^ 12)
      .ok (writeLE mem location 4 (reg1i20_set_immediate inst (intLow 32 a)))
  | .R_LARCH_PCALA64_LO20 =>
      let a := Int.fdiv offset_rem (2 ^ 32)
      .ok (writeLE mem location 4 (reg1i20_set_immediate inst (intLow 32 a)))
  | .R_LARCH_PCALA64_HI12 =>
      let a := Int.fdiv offset_rem (2 ^ 52)
      .ok (writeLE mem location 4 (reg2i12_set_immediate inst (intLow 32 a)))
  | _ => .err (.RelocationFailed "Relocation type not implemented yet")

/-- `apply_r_larch_32_pcrel`: write the low 32 bits of `S+A-P`. -/
def apply_r_larch_32_pcrel (location address : Nat) (mem : Mem) :
    Outcome Mem :=
  let offset := wrap64 (toI64 address - toI64 location)
  .ok (writeLE mem location 4 (intLow 32 offset))

/-- `apply_r_larch_64_pcrel`: write the 64-bit `S+A-P`. -/
def apply_r_larch_64_pcrel (location address : Nat) (mem : Mem) :
    Outcome Mem :=
  let offset := wrap64 (toI64 address - toI64 location)
  .ok (writeLE mem location 8 (toU64 offset))

/-- `apply_r_larch_got_pc`: calls `module_emit_got_entry()`, which is
`unimplemented!` — the load panics. -/
def apply_r_larch_got_pc : Outcome (List Int × Mem) :=
  .fatal "module_emit_got_entry is not implemented yet"

/-- `apply_r_larch_sop_push_pcrel`: push `S+A-P`. -/
def apply_r_larch_sop_push_pcrel (location address : Nat)
    (stack : List Int) : Except ModuleErr (List Int) :=
  rela_stack_push stack (wrap64 (toI64 address - toI64 location))

/-- `apply_r_larch_sop_push_plt_pcrel`: when the PC-relative offset falls
outside `±128 MiB` the code calls `module_emit_plt_entry()`, which is
`unimplemented!` — the load panics; otherwise behave as `SOP_PUSH_PCREL`. -/
def apply_r_larch_sop_push_plt_pcrel (location address : Nat)
    (stack : List Int) : Outcome (List Int) :=
  let offset := wrap64 (toI64 address - toI64 location)
  if offset < -SZ_128M ∨ SZ_128M ≤ offset then
    .fatal "module_emit_plt_entry is not implemented yet"
  else
    match apply_r_larch_sop_push_pcrel location address stack with
    | .ok s => .ok s
    | .error e => .err e

/-- `apply_r_larch_sop_push_absolute`: push `S+A` (as `i64`). -/
def apply_r_larch_sop_push_absolute (address : Nat) (stack : List Int) :
    Except ModuleErr (List Int) :=
  rela_stack_push stack (toI64 address)

/-- `apply_r_larch_sop_push_dup`: pop one value, push it twice. -/
def apply_r_larch_sop_push_dup (stack : List Int) :
    Except ModuleErr (List Int) :=
  match rela_stack_pop stack with
  | .error e => .error e
  | .ok (opr1, s1) =>
      match rela_stack_push s1 opr1 with
      | .error e => .error e
      | .ok s2 => rela_stack_push s2 opr1

/-- Two's-complement `i64` bitwise AND. -/
def iand64 (a b : Int) : Int := toI64 (Nat.land (toU64 a) (toU64 b))

/-- `apply_r_larch_sop`: the binary/ternary stack operators.  Pops `opr3`
(for `IF_ELSE` only), then `opr2`, then `opr1`; shifts whose amount is outside
`0..64` overflow-panic in a debug build. -/
def apply_r_larch_sop (ty : LaRelocationType) (stack : List Int) :
    Outcome (List Int) :=
  let step : Except ModuleErr (Int × Int × Int × List Int) :=
    if ty = .R_LARCH_SOP_IF_ELSE then
      match rela_stack_pop stack with
      | .error e => .error e
      | .ok (opr3, s1) =>
          match rela_stack_pop s1 with
          | .error e => .error e
          | .ok (opr2, s2) =>
              match rela_stack_pop s2 with
              | .error e => .error e
              | .ok (opr1, s3) => .ok (opr1, opr2, opr3, s3)
    else
      match rela_stack_pop stack with
      | .error e => .error e
      | .ok (opr2, s1) =>
          match rela_stack_pop s1 with
          | .error e => .error e
          | .ok (opr1, s2) => .ok (opr1, opr2, 0, s2)
  match step with
  | .error e => .err e
  | .ok (opr1, opr2, opr3, rest) =>
    let push (v : Int) : Outcome (List Int) :=
      match rela_stack_push rest v with
      | .error e => .err e
      | .ok s => .ok s
    match ty with
    | .R_LARCH_SOP_AND => push (iand64 opr1 opr2)
    | .R_LARCH_SOP_ADD => push (wrap64 (opr1 + opr2))
    | .R_LARCH_SOP_SUB => push (wrap64 (opr1 - opr2))
    | .R_LARCH_SOP_SL =>
        if 0 ≤ opr2 ∧ opr2 < 64 then
          push (wrap64 (opr1 * 2 ^ opr2.toNat))
        else .fatal "attempt to shift left with overflow"
    | .R_LARCH_SOP_SR =>
        if 0 ≤ opr2 ∧ opr2 < 64 then
          push (Int.fdiv opr1 (2 ^ opr2.toNat))
        else .fatal "attempt to shift right with overflow"
    | .R_LARCH_SOP_IF_ELSE => push (if opr1 ≠ 0 then opr2 else opr3)
    | _ => .err (.RelocationFailed "Unsupported SOP operation")

/-- `apply_r_larch_sop_imm_field`: pop one value and encode it into the
immediate field named by the relocation kind, with the kind's range check and
(for `_S2`) 4-byte alignment check.  `R_LARCH_SOP_POP_32_U` writes the whole
32-bit word.  The kinds the source leaves `unimplemented!` panic. -/
def apply_r_larch_sop_imm_field (ty : LaRelocationType) (location : Nat)
    (stack : List Int) (mem : Mem) : Outcome (List Int × Mem) :=
  match rela_stack_pop stack with
  | .error e => .err e
  | .ok (opr1, rest) =>
    let inst := readLE mem location 4
    match ty with
    | .R_LARCH_SOP_POP_32_U_10_12 =>
        if ¬ unsigned_imm_check (toU64 opr1) 12 then
          .err (.RelocationFailed "Relocation overflow in SOP_POP_32_U_10_12")
        else .ok (rest,
          writeLE mem location 4 (reg2i12_set_immediate inst (intLow 32 opr1)))
    | .R_LARCH_SOP_POP_32_S_10_12 =>
        if ¬ signed_imm_check opr1 12 then
          .err (.RelocationFailed "Relocation overflow in SOP_POP_32_S_10_12")
        else .ok (rest,
          writeLE mem location 4 (reg2i12_set_immediate inst (intLow 32 opr1)))
    | .R_LARCH_SOP_POP_32_S_10_16 =>
        if ¬ signed_imm_check opr1 16 then
          .err (.RelocationFailed "Relocation overflow in SOP_POP_32_S_10_16")
        else .ok (rest,
          writeLE mem location 4 (reg2i16_set_immediate inst (intLow 32 opr1)))
    | .R_LARCH_SOP_POP_32_S_10_16_S2 =>
        if opr1 % 4 ≠ 0 then
          .err (.RelocationFailed "Relocation unaligned in SOP_POP_32_S_10_16_S2")
        else if ¬ signed_imm_check opr1 23 then
          .err (.RelocationFailed "Relocation overflow in SOP_POP_32_S_10_16_S2")
        else
          let o := Int.fdiv opr1 4
          let i1 := reg1i21_set_imm_l inst (intLow 32 o)
          let i2 := reg1i21_set_imm_h i1 (intLow 32 o / 2 ^ 16)
          .ok (rest, writeLE mem location 4 i2)
    | .R_LARCH_SOP_POP_32_S_0_10_10_16_S2 =>
        if opr1 % 4 ≠ 0 then
          .err (.RelocationFailed
            "Relocation unaligned in SOP_POP_32_S_0_10_10_16_S2")
        else if ¬ signed_imm_check opr1 28 then
          .err (.RelocationFailed
            "Relocation overflow in SOP_POP_32_S_0_10_10_16_S2")
        else
          let o := Int.fdiv opr1 4
          let i1 := reg0i26_set_imm_l inst (intLow 32 o)
          let i2 := reg0i26_set_imm_h i1 (intLow 32 o / 2 ^ 16)
          .ok (rest, writeLE mem location 4 i2)
    | .R_LARCH_SOP_POP_32_U =>
        if ¬ unsigned_imm_check (toU64 opr1) 32 then
          .err (.RelocationFailed "Relocation overflow in SOP_POP_32_U")
        else .ok (rest, writeLE mem location 4 (intLow 32 opr1))
    | _ => .fatal "Relocation type not implemented yet"

/-- `apply_r_larch_add_sub`: `ADD32`/`ADD64`/`SUB32`/`SUB64` read the current
in-place value, wrapping-add or -subtract the relocation target and write the
result back at the natural width (`i32`/`i64` wrapping arithmetic equals the
unsigned modular arithmetic below on the little-endian bytes); every other
kind routed here (`SUB8`/`SUB16`/`SUB24`) hits the
"not implemented yet" error arm. -/
def apply_r_larch_add_sub (ty : LaRelocationType) (location address : Nat)
    (mem : Mem) : Outcome Mem :=
  match ty with
  | .R_LARCH_ADD32 =>
      .ok (writeLE mem location 4 ((readLE mem location 4 + address) % 2 ^ 32))
  | .R_LARCH_ADD64 =>
      .ok (writeLE mem location 8 ((readLE mem location 8 + address) % 2 ^ 64))
  | .R_LARCH_SUB32 =>
      .ok (writeLE mem location 4
        ((readLE mem location 4 + (2 ^ 32 - address % 2 ^ 32)) % 2 ^ 32))
  | .R_LARCH_SUB64 =>
      .ok (writeLE mem location 8
        ((readLE mem location 8 + (2 ^ 64 - address % 2 ^ 64)) % 2 ^ 64))
  | _ => .err (.RelocationFailed "Relocation type not implemented yet")

/-- `apply_r_larch_none` / `MARK_LA` / `MARK_PCREL`: no-ops. -/
def apply_r_larch_none (mem : Mem) : Outcome Mem := .ok mem

/-- `apply_r_larch_32`: write the low 32 bits of `S+A`. -/
def apply_r_larch_32 (location address : Nat) (mem : Mem) : Outcome Mem :=
  .ok (writeLE mem location 4 (address % 2 ^ 32))

/-- `apply_r_larch_64`: write the 64-bit `S+A`. -/
def apply_r_larch_64 (location address : Nat) (mem : Mem) : Outcome Mem :=
  .ok (writeLE mem location 8 (address % 2 ^ 64))

/-- Lift a memory-only outcome to the dispatcher's `(stack, mem)` result. -/
def withStack (stack : List Int) : Outcome Mem → Outcome (List Int × Mem)
  | .ok m => .ok (stack, m)
  | .err e => .err e
  | .fatal s => .fatal s

/-- Lift a stack-only outcome to the dispatcher's `(stack, mem)` result. -/
def withMem (mem : Mem) : Outcome (List Int) → Outcome (List Int × Mem)
  | .ok s => .ok (s, mem)
  | .err e => .err e
  | .fatal s => .fatal s

/-- `Loongarch64RelocationType::apply_relocation`: dispatch over the
relocation kind, threading the per-section evaluation stack and memory. -/
def loongApplyRelocation (ty : LaRelocationType) (location address : Nat)
    (stack : List Int) (mem : Mem) : Outcome (List Int × Mem) :=
  match ty with
  | .R_LARCH_B26 => withStack stack (apply_r_larch_b26 location address mem)
  | .R_LARCH_GOT_PC_HI20 | .R_LARCH_GOT_PC_LO12 => apply_r_larch_got_pc
  | .R_LARCH_SOP_PUSH_PLT_PCREL =>
      withMem mem (apply_r_larch_sop_push_plt_pcrel location address stack)
  | .R_LARCH_NONE => withStack stack (apply_r_larch_none mem)
  | .R_LARCH_32 => withStack stack (apply_r_larch_32 location address mem)
  | .R_LARCH_64 => withStack stack (apply_r_larch_64 location address mem)
  | .R_LARCH_MARK_LA | .R_LARCH_MARK_PCREL =>
      withStack stack (apply_r_larch_none mem)
  | .R_LARCH_SOP_PUSH_PCREL =>
      withMem mem
        (match apply_r_larch_sop_push_pcrel location address stack with
          | .ok s => .ok s
          | .error e => .err e)
  | .R_LARCH_SOP_PUSH_ABSOLUTE =>
      withMem mem
        (match apply_r_larch_sop_push_absolute address stack with
          | .ok s => .ok s
          | .error e => .err e)
  | .R_LARCH_SOP_PUSH_DUP =>
      withMem mem
        (match apply_r_larch_sop_push_dup stack with
          | .ok s => .ok s
          | .error e => .err e)
  | .R_LARCH_SOP_SUB | .R_LARCH_SOP_SL | .R_LARCH_SOP_SR
  | .R_LARCH_SOP_ADD | .R_LARCH_SOP_AND | .R_LARCH_SOP_IF_ELSE =>
      withMem mem (apply_r_larch_sop ty stack)
  | .R_LARCH_SOP_POP_32_S_10_5 | .R_LARCH_SOP_POP_32_U_10_12
  | .R_LARCH_SOP_POP_32_S_10_12 | .R_LARCH_SOP_POP_32_S_10_16
  | .R_LARCH_SOP_POP_32_S_10_16_S2 | .R_LARCH_SOP_POP_32_S_5_20
  | .R_LARCH_SOP_POP_32_S_0_5_10_16_S2 | .R_LARCH_SOP_POP_32_S_0_10_10_16_S2
  | .R_LARCH_SOP_POP_32_U =>
      apply_r_larch_sop_imm_field ty location stack mem
  | .R_LARCH_ADD32 | .R_LARCH_ADD64 | .R_LARCH_SUB8 | .R_LARCH_SUB16
  | .R_LARCH_SUB24 | .R_LARCH_SUB32 | .R_LARCH_SUB64 =>
      withStack stack (apply_r_larch_add_sub ty location address mem)
  | .R_LARCH_PCALA_HI20 | .R_LARCH_PCALA_LO12
  | .R_LARCH_PCALA64_LO20 | .R_LARCH_PCALA64_HI12 =>
      withStack stack (apply_r_larch_pcala ty location address mem)
  | .R_LARCH_32_PCREL =>
      withStack stack (apply_r_larch_32_pcrel location address mem)
  | .R_LARCH_64_PCREL =>
      withStack stack (apply_r_larch_64_pcrel location address mem)
  | .UNIMPLEMENTED => .fatal "Relocation type not implemented yet"

/-- The entry loop of `Loongarch64ArchRelocate::apply_relocate_add` over the
already-decoded entries `(kind, location, target)` of one relocation section
(`location = sechdrs[sh_info].sh_addr + r_offset`,
`target = sym.st_value.wrapping_add(r_addend)`), threading the stack. -/
def loongApplyRelocateAddAux :
    List (LaRelocationType × Nat × Nat) → List Int → Mem → Outcome Mem
  | [], _, mem => .ok mem
  | (ty, location, address) :: rest, stack, mem =>
      match loongApplyRelocation ty location address stack mem with
      | .ok (stack2, mem2) => loongApplyRelocateAddAux rest stack2 mem2
      | .err e => .err e
      | .fatal s => .fatal s

/-- `Loongarch64ArchRelocate::apply_relocate_add`: run one relocation section
with a fresh (empty) evaluation stack. -/
def loongApplyRelocateAdd (entries : List (LaRelocationType × Nat × Nat))
    (mem : Mem) : Outcome Mem :=
  loongApplyRelocateAddAux entries [] mem

/-- The 32-bit word at `loc` in a LoongArch outcome, when it succeeded. -/
def outcomeMemWord (r : Outcome Mem) (loc n : Nat) : Option Nat :=
  match r with
  | .ok m => some (readLE m loc n)
  | .err _ => none
  | .fatal _ => none

/-- **C3 (counterexample).** Running the section
`SOP_PUSH_ABSOLUTE(5); SOP_PUSH_ABSOLUTE(3); SOP_ADD; SOP_POP_32_U(loc)`
on an all-zero word succeeds, but the resulting 32-bit word at the location
is `8` itself — `R_LARCH_SOP_POP_32_U` overwrites the whole word — so bits
21:10 of that word are `0`, not `8` as the claim states. -/
theorem loong_sop_chain_counterexample :
    outcomeMemWord
        (loongApplyRelocateAdd
          [(.R_LARCH_SOP_PUSH_ABSOLUTE, 0, 5),
            (.R_LARCH_SOP_PUSH_ABSOLUTE, 0, 3),
            (.R_LARCH_SOP_ADD, 0, 0),
            (.R_LARCH_SOP_POP_32_U, 0, 0)] (fun _ => 0)) 0 4
      = some 8
    ∧ getField 8 10 12 = 0 ∧ (0 : Nat) ≠ 8 := by
  refine ⟨?_, by decide, by decide⟩
  rfl

/-- **C3 (amended).** For any location and memory, applying the section
`SOP_PUSH_ABSOLUTE(5); SOP_PUSH_ABSOLUTE(3); SOP_ADD; SOP_POP_32_U(loc)`
succeeds, and the entire 32-bit word at the location is overwritten with `8`
(the popped value is written as a whole word, not into bits 21:10). -/
theorem loong_sop_chain_writes_whole_word (loc : Nat) (mem : Mem)
    (l1 l2 l3 t3 t4 : Nat) :
    loongApplyRelocateAdd
        [(.R_LARCH_SOP_PUSH_ABSOLUTE, l1, 5),
          (.R_LARCH_SOP_PUSH_ABSOLUTE, l2, 3),
          (.R_LARCH_SOP_ADD, l3, t3),
          (.R_LARCH_SOP_POP_32_U, loc, t4)] mem
      = .ok (writeLE mem loc 4 8) := by
  simp [loongApplyRelocateAdd, loongApplyRelocateAddAux, loongApplyRelocation,
    apply_r_larch_sop_push_absolute, apply_r_larch_sop,
    apply_r_larch_sop_imm_field, rela_stack_push, rela_stack_pop,
    RELA_STACK_DEPTH, withMem, unsigned_imm_check, toU64, toI64, wrap64,
    intLow]

/-- **C4 (counterexample).** `R_LARCH_SUB8` — one of the kinds the claim says
always succeeds — returns a relocation-failed ("not implemented yet") error. -/
theorem loong_sub8_fails_counterexample :
    loongApplyRelocation .R_LARCH_SUB8 0 0 [] (fun _ => 0)
      = .err (.RelocationFailed "Relocation type not implemented yet") := by
  rfl

/-- **C4 (amended).** `ADD32`/`ADD64`/`SUB32`/`SUB64` read the value stored at
the location, wrapping-add (resp. -subtract) the relocation target `S+A`, and
write the result back at the natural width, succeeding on every input and
leaving the stack untouched; `SUB8`/`SUB16`/`SUB24`, however, always return a
relocation-failed ("not implemented yet") error. -/
theorem loong_add_sub_spec (loc target : Nat) (stack : List Int) (mem : Mem) :
    (loongApplyRelocation .R_LARCH_ADD32 loc target stack mem
      = .ok (stack, writeLE mem loc 4 ((readLE mem loc 4 + target) % 2 ^ 32)))
    ∧ (loongApplyRelocation .R_LARCH_ADD64 loc target stack mem
      = .ok (stack, writeLE mem loc 8 ((readLE mem loc 8 + target) % 2 ^ 64)))
    ∧ (loongApplyRelocation .R_LARCH_SUB32 loc target stack mem
      = .ok (stack, writeLE mem loc 4
          ((readLE mem loc 4 + (2 ^ 32 - target % 2 ^ 32)) % 2 ^ 32)))
    ∧ (loongApplyRelocation .R_LARCH_SUB64 loc target stack mem
      = .ok (stack, writeLE mem loc 8
          ((readLE mem loc 8 + (2 ^ 64 - target % 2 ^ 64)) % 2 ^ 64)))
    ∧ (loongApplyRelocation .R_LARCH_SUB8 loc target stack mem
      = .err (.RelocationFailed "Relocation type not implemented yet"))
    ∧ (loongApplyRelocation .R_LARCH_SUB16 loc target stack mem
      = .err (.RelocationFailed "Relocation type not implemented yet"))
    ∧ (loongApplyRelocation .R_LARCH_SUB24 loc target stack mem
      = .err (.RelocationFailed "Relocation type not implemented yet")) :=
  ⟨rfl, rfl, rfl, rfl, rfl, rfl, rfl⟩

/-! ## AArch64 relocation engine, from
`src/kmod-loader/src/arch/aarch64/mod.rs` and
`src/kmod-loader/src/arch/aarch64/insn.rs` -/

/-- `Aarch64RelocOp`. -/
inductive Aarch64RelocOp : Type
  | RELOC_OP_NONE
  | RELOC_OP_ABS
  | RELOC_OP_PREL
  | RELOC_OP_PAGE
  deriving DecidableEq, Repr

/-- `Aarch64InsnMovwImmType`. -/
inductive Aarch64InsnMovwImmType : Type
  | AARCH64_INSN_IMM_MOVNZ
  | AARCH64_INSN_IMM_MOVKZ
  deriving DecidableEq, Repr

/-- `Aarch64InsnImmType`. -/
inductive Aarch64InsnImmType : Type
  | AARCH64_INSN_IMM_ADR
  | AARCH64_INSN_IMM_26
  | AARCH64_INSN_IMM_19
  | AARCH64_INSN_IMM_16
  | AARCH64_INSN_IMM_14
  | AARCH64_INSN_IMM_12
  | AARCH64_INSN_IMM_9
  | AARCH64_INSN_IMM_7
  | AARCH64_INSN_IMM_6
  | AARCH64_INSN_IMM_S
  | AARCH64_INSN_IMM_R
  | AARCH64_INSN_IMM_N
  | AARCH64_INSN_IMM_MAX
  deriving DecidableEq, Repr

/-- `AARCH64_BREAK_FAULT = AARCH64_BREAK_MON | (FAULT_BRK_IMM << 5)`. -/
def AARCH64_BREAK_FAULT : Nat := 0xd4200000 + 0x100 * 2 ^ 5

/-- `do_reloc(op, location, address)`: `S+A` for ABS, wrapping `S+A-P` for
PREL, page-aligned wrapping difference for PAGE, `0` for NONE. -/
def do_reloc (op : Aarch64RelocOp) (location address : Nat) : Nat :=
  match op with
  | .RELOC_OP_ABS => address % 2 ^ 64
  | .RELOC_OP_PREL => wsub64 address location
  | .RELOC_OP_PAGE =>
      wsub64 (address % 2 ^ 64 - address % 2 ^ 64 % 0x1000)
        (location % 2 ^ 64 - location % 2 ^ 64 % 0x1000)
  | .RELOC_OP_NONE => 0

/-- `is_forbidden_offset_for_adrp`: stubbed to `false` in the source. -/
def is_forbidden_offset_for_adrp (_address : Nat) : Bool := false

/-- `aarch64_get_imm_shift_mask`: `(shift, field width)` per immediate type,
where the source's mask is `2 ^ width - 1`. -/
def aarch64_get_imm_shift_mask (it : Aarch64InsnImmType) :
    Except ModuleErr (Nat × Nat) :=
  match it with
  | .AARCH64_INSN_IMM_26 => .ok (0, 26)
  | .AARCH64_INSN_IMM_19 => .ok (5, 19)
  | .AARCH64_INSN_IMM_16 => .ok (5, 16)
  | .AARCH64_INSN_IMM_14 => .ok (5, 14)
  | .AARCH64_INSN_IMM_12 => .ok (10, 12)
  | .AARCH64_INSN_IMM_9 => .ok (12, 9)
  | .AARCH64_INSN_IMM_7 => .ok (15, 7)
  | .AARCH64_INSN_IMM_6 | .AARCH64_INSN_IMM_S => .ok (10, 6)
  | .AARCH64_INSN_IMM_R => .ok (16, 6)
  | .AARCH64_INSN_IMM_N => .ok (22, 1)
  | _ => .error (.RelocationFailed "unknown immediate encoding")

/-- `aarch64_insn_encode_immediate`: a word equal to `AARCH64_BREAK_FAULT` is
an "already poisoned" sentinel and is returned untouched; `ADR` uses the split
field (low 2 bits at 30:29, high 19 bits at 23:5); other types place the
masked immediate per the shift/mask table; an unknown type yields
`AARCH64_BREAK_FAULT`. -/
def aarch64_insn_encode_immediate (it : Aarch64InsnImmType)
    (insn imm : Nat) : Nat :=
  if insn = AARCH64_BREAK_FAULT then insn
  else
    match it with
    | .AARCH64_INSN_IMM_ADR =>
        setField (setField insn 29 2 imm) 5 19 (imm / 4)
    | _ =>
        match aarch64_get_imm_shift_mask it with
        | .ok (shift, width) => setField insn shift width imm
        | .error _ => AARCH64_BREAK_FAULT

/-- `reloc_data`: write the `len`-bit relocation value at the location and
report overflow per the op's signed/unsigned bound (64-bit never overflows). -/
def reloc_data (op : Aarch64RelocOp) (location address : Nat) (len : Nat)
    (mem : Mem) : Outcome (Bool × Mem) :=
  let s_addr := do_reloc op location address
  let si := toI64 s_addr
  if len = 16 then
    let mem2 := writeLE mem location 2 (s_addr % 2 ^ 16)
    match op with
    | .RELOC_OP_ABS => .ok (decide (si < 0 ∨ 65535 < si), mem2)
    | .RELOC_OP_PREL => .ok (decide (si < -32768 ∨ 32767 < si), mem2)
    | _ => .fatal "Unsupported operation for AArch64 16-bit relocation"
  else if len = 32 then
    let mem2 := writeLE mem location 4 (s_addr % 2 ^ 32)
    match op with
    | .RELOC_OP_ABS => .ok (decide (si < 0 ∨ 4294967295 < si), mem2)
    | .RELOC_OP_PREL =>
        .ok (decide (si < -2147483648 ∨ 2147483647 < si), mem2)
    | _ => .fatal "Unsupported operation for AArch64 32-bit relocation"
  else if len = 64 then
    .ok (false, writeLE mem location 8 s_addr)
  else .fatal "Unsupported length for AArch64 relocation"

/-- `reloc_insn_movw`: encode `(result >> lsb) & 0xFFFF` into the MOVW
immediate field (bits 20:5); for `MOVNZ`, rewrite the opcode bits 30:29 to
MOVZ when the result is non-negative, or keep MOVN and invert the immediate
when negative.  Overflow when the (possibly inverted) immediate exceeds
`0xFFFF`. -/
def reloc_insn_movw (op : Aarch64RelocOp) (location address : Nat)
    (lsb : Nat) (mt : Aarch64InsnMovwImmType) (mem : Mem) :
    Outcome (Bool × Mem) :=
  let insn := readLE mem location 4
  let s_addr := toI64 (do_reloc op location address)
  let imm := toU64 (Int.fdiv s_addr (2 ^ lsb))
  let step : Nat × Nat :=
    if mt = .AARCH64_INSN_IMM_MOVNZ then
      if 0 ≤ s_addr then (setField insn 29 2 2, imm)
      else (setField insn 29 2 0, 2 ^ 64 - 1 - imm)
    else (insn, imm)
  let insn2 := aarch64_insn_encode_immediate .AARCH64_INSN_IMM_16
    step.1 step.2
  .ok (decide (65535 < step.2), writeLE mem location 4 insn2)

/-- `reloc_insn_imm`: extract bits `[lsb, lsb+len)` of the relocation result,
encode them into the selected immediate field, and report overflow when the
bits of the result above `len` are not all copies of its sign bit. -/
def reloc_insn_imm (op : Aarch64RelocOp) (location address : Nat)
    (lsb len : Nat) (it : Aarch64InsnImmType) (mem : Mem) :
    Outcome (Bool × Mem) :=
  let insn := readLE mem location 4
  let s_addr := Int.fdiv (toI64 (do_reloc op location address)) (2 ^ lsb)
  let imm := toU64 s_addr % 2 ^ len
  let insn2 := aarch64_insn_encode_immediate it insn imm
  let sval := Int.fdiv s_addr (2 ^ (len - 1))
  .ok (decide (¬(sval = 0 ∨ sval = -1)), writeLE mem location 4 insn2)

/-- `reloc_insn_adrp`: with the erratum predicate stubbed to `false` this is
`reloc_insn_imm(PAGE, 12, 21, ADR)`; the (dead) mitigation path converts ADRP
to ADR over a PREL 21-bit immediate, failing when that conversion overflows. -/
def reloc_insn_adrp (location address : Nat) (mem : Mem) :
    Outcome (Bool × Mem) :=
  if is_forbidden_offset_for_adrp address = false then
    reloc_insn_imm .RELOC_OP_PAGE location address 12 21
      .AARCH64_INSN_IMM_ADR mem
  else
    match reloc_insn_imm .RELOC_OP_PREL location
        (address % 2 ^ 64 - address % 2 ^ 64 % 0x1000) 0 21
        .AARCH64_INSN_IMM_ADR mem with
    | .ok (false, mem2) =>
        let insn := readLE mem2 location 4
        .ok (false, writeLE mem2 location 4 (setField insn 31 1 0))
    | .ok (true, _) =>
        .err (.RelocationFailed "ADR out of range for veneer emission")
    | .err e => .err e
    | .fatal s => .fatal s

/-- `Aarch64RelocationType`. -/
inductive Aarch64RelocationType : Type
  | R_ARM_NONE
  | R_AARCH64_NONE
  | R_AARCH64_ABS64
  | R_AARCH64_ABS32
  | R_AARCH64_ABS16
  | R_AARCH64_PREL64
  | R_AARCH64_PREL32
  | R_AARCH64_PREL16
  | R_AARCH64_MOVW_UABS_G0
  | R_AARCH64_MOVW_UABS_G0_NC
  | R_AARCH64_MOVW_UABS_G1
  | R_AARCH64_MOVW_UABS_G1_NC
  | R_AARCH64_MOVW_UABS_G2
  | R_AARCH64_MOVW_UABS_G2_NC
  | R_AARCH64_MOVW_UABS_G3
  | R_AARCH64_MOVW_SABS_G0
  | R_AARCH64_MOVW_SABS_G1
  | R_AARCH64_MOVW_SABS_G2
  | R_AARCH64_LD_PREL_LO19
  | R_AARCH64_ADR_PREL_LO21
  | R_AARCH64_ADR_PREL_PG_HI21
  | R_AARCH64_ADR_PREL_PG_HI21_NC
  | R_AARCH64_ADD_ABS_LO12_NC
  | R_AARCH64_LDST8_ABS_LO12_NC
  | R_AARCH64_TSTBR14
  | R_AARCH64_CONDBR19
  | R_AARCH64_JUMP26
  | R_AARCH64_CALL26
  | R_AARCH64_LDST16_ABS_LO12_NC
  | R_AARCH64_LDST32_ABS_LO12_NC
  | R_AARCH64_LDST64_ABS_LO12_NC
  | R_AARCH64_LDST128_ABS_LO12_NC
  | R_AARCH64_MOVW_PREL_G0
  | R_AARCH64_MOVW_PREL_G0_NC
  | R_AARCH64_MOVW_PREL_G1
  | R_AARCH64_MOVW_PREL_G1_NC
  | R_AARCH64_MOVW_PREL_G2
  | R_AARCH64_MOVW_PREL_G2_NC
  | R_AARCH64_MOVW_PREL_G3
  | R_AARCH64_RELATIVE
  deriving DecidableEq, Repr

/-- Fold the per-kind overflow flag into the final result:
`check_overflow && ovf` is an overflow error. -/
def finishCheck (check : Bool) (r : Outcome (Bool × Mem)) : Outcome Mem :=
  match r with
  | .ok (ovf, m) =>
      if check ∧ ovf then
        .err (.RelocationFailed "Overflow detected during relocation")
      else .ok m
  | .err e => .err e
  | .fatal s => .fatal s

/-- The `JUMP26`/`CALL26` tail: an overflow demands a PLT veneer, which is
`unimplemented!` — the load panics. -/
def finishJump (r : Outcome (Bool × Mem)) : Outcome Mem :=
  match r with
  | .ok (true, _) =>
      .fatal "Veneer emission for out-of-range AArch64 JUMP26/CALL26"
  | .ok (false, m) => .ok m
  | .err e => .err e
  | .fatal s => .fatal s

/-- `Aarch64RelocationType::apply_relocation`. -/
def aarch64ApplyRelocation (ty : Aarch64RelocationType)
    (location address : Nat) (mem : Mem) : Outcome Mem :=
  match ty with
  | .R_ARM_NONE | .R_AARCH64_NONE => .ok mem
  | .R_AARCH64_ABS64 =>
      finishCheck false (reloc_data .RELOC_OP_ABS location address 64 mem)
  | .R_AARCH64_ABS32 =>
      finishCheck true (reloc_data .RELOC_OP_ABS location address 32 mem)
  | .R_AARCH64_ABS16 =>
      finishCheck true (reloc_data .RELOC_OP_ABS location address 16 mem)
  | .R_AARCH64_PREL64 =>
      finishCheck false (reloc_data .RELOC_OP_PREL location address 64 mem)
  | .R_AARCH64_PREL32 =>
      finishCheck true (reloc_data .RELOC_OP_PREL location address 32 mem)
  | .R_AARCH64_PREL16 =>
      finishCheck true (reloc_data .RELOC_OP_PREL location address 16 mem)
  | .R_AARCH64_MOVW_UABS_G0_NC =>
      finishCheck false (reloc_insn_movw .RELOC_OP_ABS location address 0
        .AARCH64_INSN_IMM_MOVKZ mem)
  | .R_AARCH64_MOVW_UABS_G0 =>
      finishCheck true (reloc_insn_movw .RELOC_OP_ABS location address 0
        .AARCH64_INSN_IMM_MOVKZ mem)
  | .R_AARCH64_MOVW_UABS_G1_NC =>
      finishCheck false (reloc_insn_movw .RELOC_OP_ABS location address 16
        .AARCH64_INSN_IMM_MOVKZ mem)
  | .R_AARCH64_MOVW_UABS_G1 =>
      finishCheck true (reloc_insn_movw .RELOC_OP_ABS location address 16
        .AARCH64_INSN_IMM_MOVKZ mem)
  | .R_AARCH64_MOVW_UABS_G2_NC =>
      finishCheck false (reloc_insn_movw .RELOC_OP_ABS location address 32
        .AARCH64_INSN_IMM_MOVKZ mem)
  | .R_AARCH64_MOVW_UABS_G2 =>
      finishCheck true (reloc_insn_movw .RELOC_OP_ABS location address 32
        .AARCH64_INSN_IMM_MOVKZ mem)
  | .R_AARCH64_MOVW_UABS_G3 =>
      finishCheck false (reloc_insn_movw .RELOC_OP_ABS location address 48
        .AARCH64_INSN_IMM_MOVKZ mem)
  | .R_AARCH64_MOVW_SABS_G0 =>
      finishCheck true (reloc_insn_movw .RELOC_OP_ABS location address 0
        .AARCH64_INSN_IMM_MOVNZ mem)
  | .R_AARCH64_MOVW_SABS_G1 =>
      finishCheck true (reloc_insn_movw .RELOC_OP_ABS location address 16
        .AARCH64_INSN_IMM_MOVNZ mem)
  | .R_AARCH64_MOVW_SABS_G2 =>
      finishCheck true (reloc_insn_movw .RELOC_OP_ABS location address 32
        .AARCH64_INSN_IMM_MOVNZ mem)
  | .R_AARCH64_MOVW_PREL_G0_NC =>
      finishCheck false (reloc_insn_movw .RELOC_OP_PREL location address 0
        .AARCH64_INSN_IMM_MOVKZ mem)
  | .R_AARCH64_MOVW_PREL_G0 =>
      finishCheck true (reloc_insn_movw .RELOC_OP_PREL location address 0
        .AARCH64_INSN_IMM_MOVNZ mem)
  | .R_AARCH64_MOVW_PREL_G1_NC =>
      finishCheck false (reloc_insn_movw .RELOC_OP_PREL location address 16
        .AARCH64_INSN_IMM_MOVKZ mem)
  | .R_AARCH64_MOVW_PREL_G1 =>
      finishCheck true (reloc_insn_movw .RELOC_OP_PREL location address 16
        .AARCH64_INSN_IMM_MOVNZ mem)
  | .R_AARCH64_MOVW_PREL_G2_NC =>
      finishCheck false (reloc_insn_movw .RELOC_OP_PREL location address 32
        .AARCH64_INSN_IMM_MOVKZ mem)
  | .R_AARCH64_MOVW_PREL_G2 =>
      finishCheck true (reloc_insn_movw .RELOC_OP_PREL location address 32
        .AARCH64_INSN_IMM_MOVNZ mem)
  | .R_AARCH64_MOVW_PREL_G3 =>
      finishCheck false (reloc_insn_movw .RELOC_OP_PREL location address 48
        .AARCH64_INSN_IMM_MOVNZ mem)
  | .R_AARCH64_LD_PREL_LO19 =>
      finishCheck true (reloc_insn_imm .RELOC_OP_PREL location address 2 19
        .AARCH64_INSN_IMM_19 mem)
  | .R_AARCH64_ADR_PREL_LO21 =>
      finishCheck true (reloc_insn_imm .RELOC_OP_PREL location address 0 21
        .AARCH64_INSN_IMM_ADR mem)
  | .R_AARCH64_ADR_PREL_PG_HI21 =>
      finishCheck true (reloc_insn_adrp location address mem)
  | .R_AARCH64_ADR_PREL_PG_HI21_NC =>
      finishCheck false (reloc_insn_adrp location address mem)
  | .R_AARCH64_ADD_ABS_LO12_NC | .R_AARCH64_LDST8_ABS_LO12_NC =>
      finishCheck false (reloc_insn_imm .RELOC_OP_ABS location address 0 12
        .AARCH64_INSN_IMM_12 mem)
  | .R_AARCH64_LDST16_ABS_LO12_NC =>
      finishCheck false (reloc_insn_imm .RELOC_OP_ABS location address 1 11
        .AARCH64_INSN_IMM_12 mem)
  | .R_AARCH64_LDST32_ABS_LO12_NC =>
      finishCheck false (reloc_insn_imm .RELOC_OP_ABS location address 2 10
        .AARCH64_INSN_IMM_12 mem)
  | .R_AARCH64_LDST64_ABS_LO12_NC =>
      finishCheck false (reloc_insn_imm .RELOC_OP_ABS location address 3 9
        .AARCH64_INSN_IMM_12 mem)
  | .R_AARCH64_LDST128_ABS_LO12_NC =>
      finishCheck false (reloc_insn_imm .RELOC_OP_ABS location address 4 8
        .AARCH64_INSN_IMM_12 mem)
  | .R_AARCH64_TSTBR14 =>
      finishCheck true (reloc_insn_imm .RELOC_OP_PREL location address 2 14
        .AARCH64_INSN_IMM_14 mem)
  | .R_AARCH64_CONDBR19 =>
      finishCheck true (reloc_insn_imm .RELOC_OP_PREL location address 2 19
        .AARCH64_INSN_IMM_19 mem)
  | .R_AARCH64_JUMP26 | .R_AARCH64_CALL26 =>
      finishJump (reloc_insn_imm .RELOC_OP_PREL location address 2 26
        .AARCH64_INSN_IMM_26 mem)
  | .R_AARCH64_RELATIVE =>
      .err (.RelocationFailed "Unsupported relocation type")

/-! ## Support lemmas for the translation-invariance analysis -/

/-- `readLE` depends only on the bytes it reads. -/
theorem readLE_congr (m1 m2 : Mem) (loc1 loc2 : Nat) (n : Nat)
    (h : ∀ i, i < n → m1 (loc1 + i) = m2 (loc2 + i)) :
    readLE m1 loc1 n = readLE m2 loc2 n := by
  induction n generalizing loc1 loc2 with
  | zero => rfl
  | succ n ih =>
      rw [readLE, readLE]
      have h0 := h 0 (Nat.succ_pos n)
      simp only [Nat.add_zero] at h0
      rw [h0, ih (loc1 + 1) (loc2 + 1)]
      intro i hi
      have h1 := h (i + 1) (by omega)
      have e1 : loc1 + (i + 1) = loc1 + 1 + i := by omega
      have e2 : loc2 + (i + 1) = loc2 + 1 + i := by omega
      rwa [e1, e2] at h1

/-- Reading back a little-endian write returns the written value reduced to
the written width. -/
theorem readLE_writeLE (mem : Mem) (loc v : Nat) (n : Nat) :
    readLE (writeLE mem loc n v) loc n = v % 256 ^ n := by
  induction n generalizing mem loc v with
  | zero => simp [readLE, Nat.mod_one]
  | succ n ih =>
      rw [readLE]
      have hbyte : writeLE mem loc (n + 1) v loc = v % 256 := by
        simp [writeLE]
      have hrest : readLE (writeLE mem loc (n + 1) v) (loc + 1) n
          = readLE (writeLE mem (loc + 1) n (v / 256)) (loc + 1) n := by
        apply readLE_congr
        intro i hi
        simp only [writeLE]
        rw [if_pos (by omega : loc ≤ loc + 1 + i ∧ loc + 1 + i < loc + (n + 1)),
          if_pos (by omega : loc + 1 ≤ loc + 1 + i ∧ loc + 1 + i < loc + 1 + n)]
        have e1 : loc + 1 + i - loc = i + 1 := by omega
        have e2 : loc + 1 + i - (loc + 1) = i := by omega
        rw [e1, e2, pow_succ, mul_comm, Nat.div_div_eq_div_mul]
      rw [hbyte, hrest, ih, pow_succ, mul_comm (256 ^ n) 256, Nat.mod_mul]

/-- The word read back from a plain successful write. -/
theorem outcomeMemWord_okWrite (mem : Mem) (loc n v : Nat) :
    outcomeMemWord (.ok (writeLE mem loc n v)) loc n = some (v % 256 ^ n) := by
  simp [outcomeMemWord, readLE_writeLE]

/-- The word read back through `finishCheck` on a successful write. -/
theorem outcomeMemWord_finishCheck (c ovf : Bool) (mem : Mem)
    (loc n v : Nat) :
    outcomeMemWord (finishCheck c (.ok (ovf, writeLE mem loc n v))) loc n
      = if c = true ∧ ovf = true then none else some (v % 256 ^ n) := by
  cases c <;> cases ovf <;>
    simp [finishCheck, outcomeMemWord, readLE_writeLE]

/-- The word read back through the `JUMP26`/`CALL26` tail. -/
theorem outcomeMemWord_finishJump (ovf : Bool) (mem : Mem) (loc n v : Nat) :
    outcomeMemWord (finishJump (.ok (ovf, writeLE mem loc n v))) loc n
      = if ovf = true then none else some (v % 256 ^ n) := by
  cases ovf <;> simp [finishJump, outcomeMemWord, readLE_writeLE]

/-- `u64` wrapping subtraction is invariant under translating both operands. -/
theorem wsub64_shift (a b k : Nat) :
    wsub64 ((a + k) % 2 ^ 64) ((b + k) % 2 ^ 64) = wsub64 a b := by
  unfold wsub64
  omega

/-- `do_reloc(PREL)` is translation invariant for every shift. -/
theorem do_reloc_prel_shift (loc addr k : Nat) :
    do_reloc .RELOC_OP_PREL ((loc + k) % 2 ^ 64) ((addr + k) % 2 ^ 64)
      = do_reloc .RELOC_OP_PREL loc addr := by
  unfold do_reloc
  exact wsub64_shift addr loc k

/-- `do_reloc(PAGE)` is translation invariant for page-aligned shifts. -/
theorem do_reloc_page_shift (loc addr k : Nat) (hk : 4096 ∣ k) :
    do_reloc .RELOC_OP_PAGE ((loc + k) % 2 ^ 64) ((addr + k) % 2 ^ 64)
      = do_reloc .RELOC_OP_PAGE loc addr := by
  obtain ⟨t, rfl⟩ := hk
  simp only [do_reloc, wsub64]
  omega

/-- The write width of each AArch64 PC-relative kind (8 for `PREL64`, 2 for
`PREL16`, 4 for instruction kinds and `PREL32`). -/
def aarch64RelWidth : Aarch64RelocationType → Nat
  | .R_AARCH64_PREL64 => 8
  | .R_AARCH64_PREL16 => 2
  | _ => 4

/-- The AArch64 relocation kinds computed through `RELOC_OP_PREL`
(`S+A-P`). -/
def aarch64PrelKinds : List Aarch64RelocationType :=
  [.R_AARCH64_PREL64, .R_AARCH64_PREL32, .R_AARCH64_PREL16,
    .R_AARCH64_MOVW_PREL_G0, .R_AARCH64_MOVW_PREL_G0_NC,
    .R_AARCH64_MOVW_PREL_G1, .R_AARCH64_MOVW_PREL_G1_NC,
    .R_AARCH64_MOVW_PREL_G2, .R_AARCH64_MOVW_PREL_G2_NC,
    .R_AARCH64_MOVW_PREL_G3, .R_AARCH64_LD_PREL_LO19,
    .R_AARCH64_ADR_PREL_LO21, .R_AARCH64_TSTBR14, .R_AARCH64_CONDBR19,
    .R_AARCH64_JUMP26, .R_AARCH64_CALL26]

/-- Every `RELOC_OP_PREL`-based AArch64 kind emits the same word (and the same
success/failure) at `(S+k, A, P+k)` as at `(S, A, P)`, for every shift `k`,
provided the instruction word initially at the patched location is the same. -/
theorem aarch64_prel_kinds_shift (ty : Aarch64RelocationType)
    (hty : ty ∈ aarch64PrelKinds) (loc addr k : Nat) (mem mem' : Mem)
    (hw : readLE mem' ((loc + k) % 2 ^ 64) 4 = readLE mem loc 4) :
    outcomeMemWord
        (aarch64ApplyRelocation ty ((loc + k) % 2 ^ 64)
          ((addr + k) % 2 ^ 64) mem') ((loc + k) % 2 ^ 64)
        (aarch64RelWidth ty)
      = outcomeMemWord (aarch64ApplyRelocation ty loc addr mem) loc
          (aarch64RelWidth ty) := by
  have hdo := do_reloc_prel_shift loc addr k
  norm_num at hdo hw
  fin_cases hty <;>
    simp [aarch64ApplyRelocation, aarch64RelWidth, reloc_data,
      reloc_insn_movw, reloc_insn_imm, hdo, hw,
      outcomeMemWord_finishCheck, outcomeMemWord_finishJump]

/-- The AArch64 page kinds (`ADR_PREL_PG_HI21[_NC]`) emit the same word at
`(S+k, A, P+k)` as at `(S, A, P)` when `k` is a multiple of 4096, provided
the instruction word initially at the patched location is the same. -/
theorem aarch64_page_kinds_shift (ty : Aarch64RelocationType)
    (hty : ty = .R_AARCH64_ADR_PREL_PG_HI21
      ∨ ty = .R_AARCH64_ADR_PREL_PG_HI21_NC)
    (loc addr k : Nat) (hk : 4096 ∣ k) (mem mem' : Mem)
    (hw : readLE mem' ((loc + k) % 2 ^ 64) 4 = readLE mem loc 4) :
    outcomeMemWord
        (aarch64ApplyRelocation ty ((loc + k) % 2 ^ 64)
          ((addr + k) % 2 ^ 64) mem') ((loc + k) % 2 ^ 64) 4
      = outcomeMemWord (aarch64ApplyRelocation ty loc addr mem) loc 4 := by
  have hdo := do_reloc_page_shift loc addr k hk
  norm_num at hdo hw
  rcases hty with h | h <;> subst h <;>
    simp [aarch64ApplyRelocation, reloc_insn_adrp,
      is_forbidden_offset_for_adrp, reloc_insn_imm,
      hdo, hw, outcomeMemWord_finishCheck]

/-- The wrapped `i64` difference `S+A-P` is invariant under translating both
operands by any `k`. -/
theorem wrap_sub_shift (a b k : Nat) :
    wrap64 (toI64 ((a + k) % 2 ^ 64) - toI64 ((b + k) % 2 ^ 64))
      = wrap64 (toI64 a - toI64 b) := by
  unfold toI64 wrap64
  split <;> split <;> split <;> split <;> omega

/-- The `S+A-P`-based LoongArch kinds are translation invariant for every
shift `k`: `SOP_PUSH_PCREL` pushes the same value, and `32_PCREL`/`64_PCREL`
write the same word. -/
theorem loong_pcrel_shift (loc addr k : Nat) (stack : List Int)
    (mem mem' : Mem) :
    (apply_r_larch_sop_push_pcrel ((loc + k) % 2 ^ 64) ((addr + k) % 2 ^ 64)
        stack
      = apply_r_larch_sop_push_pcrel loc addr stack)
    ∧ (outcomeMemWord
        (apply_r_larch_32_pcrel ((loc + k) % 2 ^ 64) ((addr + k) % 2 ^ 64)
          mem') ((loc + k) % 2 ^ 64) 4
      = outcomeMemWord (apply_r_larch_32_pcrel loc addr mem) loc 4)
    ∧ (outcomeMemWord
        (apply_r_larch_64_pcrel ((loc + k) % 2 ^ 64) ((addr + k) % 2 ^ 64)
          mem') ((loc + k) % 2 ^ 64) 8
      = outcomeMemWord (apply_r_larch_64_pcrel loc addr mem) loc 8) := by
  have hws := wrap_sub_shift addr loc k
  refine ⟨?_, ?_, ?_⟩
  · unfold apply_r_larch_sop_push_pcrel
    rw [hws]
  · unfold apply_r_larch_32_pcrel
    rw [hws, outcomeMemWord_okWrite, outcomeMemWord_okWrite]
  · unfold apply_r_larch_64_pcrel
    rw [hws, outcomeMemWord_okWrite, outcomeMemWord_okWrite]

/-- `offset_hi20` of the PCALA pair is invariant under page-aligned shifts. -/
theorem pcalaOffsetHi20_shift (loc addr k : Nat) (hk : 4096 ∣ k) :
    pcalaOffsetHi20 ((loc + k) % 2 ^ 64) ((addr + k) % 2 ^ 64)
      = pcalaOffsetHi20 loc addr := by
  obtain ⟨t, rfl⟩ := hk
  unfold pcalaOffsetHi20
  apply congrArg
  unfold intLow pcalaLeftPage pcalaRightPage
  apply congrArg
  push_cast
  omega

/-- `offset_rem` of the PCALA pair is invariant under page-aligned shifts. -/
theorem pcalaOffsetRem_shift (loc addr k : Nat) (hk : 4096 ∣ k) :
    pcalaOffsetRem ((loc + k) % 2 ^ 64) ((addr + k) % 2 ^ 64)
      = pcalaOffsetRem loc addr := by
  have hhi := pcalaOffsetHi20_shift loc addr k hk
  obtain ⟨t, rfl⟩ := hk
  unfold pcalaOffsetRem pcalaAnchor
  rw [hhi]
  unfold wrap64 toI64 pcalaRightPage
  split <;> split <;> split <;> split <;> omega

/-- The PCALA page-pair kinds. -/
def loongPcalaKinds : List LaRelocationType :=
  [.R_LARCH_PCALA_LO12, .R_LARCH_PCALA_HI20,
    .R_LARCH_PCALA64_LO20, .R_LARCH_PCALA64_HI12]

/-- The PCALA kinds emit the same word at `(S+k, A, P+k)` as at `(S, A, P)`
when `k` is a multiple of 4096, provided the instruction word initially at the
patched location is the same. -/
theorem loong_pcala_shift (ty : LaRelocationType)
    (hty : ty ∈ loongPcalaKinds) (loc addr k : Nat) (hk : 4096 ∣ k)
    (mem mem' : Mem)
    (hw : readLE mem' ((loc + k) % 2 ^ 64) 4 = readLE mem loc 4) :
    outcomeMemWord
        (apply_r_larch_pcala ty ((loc + k) % 2 ^ 64) ((addr + k) % 2 ^ 64)
          mem') ((loc + k) % 2 ^ 64) 4
      = outcomeMemWord (apply_r_larch_pcala ty loc addr mem) loc 4 := by
  have hhi := pcalaOffsetHi20_shift loc addr k hk
  have hrem := pcalaOffsetRem_shift loc addr k hk
  have hlo : ∀ inst : Nat,
      reg2i12_set_immediate inst ((addr + k) % 2 ^ 64 % 2 ^ 64)
        = reg2i12_set_immediate inst (addr % 2 ^ 64) := by
    obtain ⟨t, rfl⟩ := hk
    intro inst
    unfold reg2i12_set_immediate setField
    omega
  norm_num at hhi hrem hw hlo
  fin_cases hty <;>
    simp [apply_r_larch_pcala, hhi, hrem, hw, hlo, outcomeMemWord_okWrite]

/-- **C5 (counterexample).** `R_LARCH_PCALA_LO12` encodes `(S+A) & 0xFFF`,
which depends on the symbol value but not on the location: with `S = A = P = 0`
and shift `k = 1` the emitted immediate (bits 21:10) changes from `0` to `1`,
so the claimed invariance for all shifts `k` fails. -/
theorem pcala_lo12_not_invariant_counterexample :
    outcomeMemWord
        (apply_r_larch_pcala .R_LARCH_PCALA_LO12 0 0 (fun _ => 0)) 0 4
      = some 0
    ∧ outcomeMemWord
        (apply_r_larch_pcala .R_LARCH_PCALA_LO12 1 1 (fun _ => 0)) 1 4
      = some 1024
    ∧ getField 0 10 12 ≠ getField 1024 10 12 := by
  refine ⟨rfl, rfl, by decide⟩

/-- **C5 (amended).** Translation invariance of the emitted immediate:
(i) every `S+A-P`-based AArch64 kind (`PREL{64,32,16}`, the `MOVW_PREL`
family, `LD_PREL_LO19`, `ADR_PREL_LO21`, `TSTBR14`, `CONDBR19`, `JUMP26`,
`CALL26`) emits the same word for `(S+k, A, P+k)` as for `(S, A, P)` for every
shift `k`; (ii) the AArch64 page kinds `ADR_PREL_PG_HI21[_NC]` do so when `k`
is a multiple of 4096; (iii) the LoongArch `S+A-P` kinds (`SOP_PUSH_PCREL`,
`32_PCREL`, `64_PCREL`) are invariant for every `k`; (iv) the LoongArch PCALA
kinds are invariant when `k` is a multiple of 4096 (and `PCALA_LO12`, which
encodes `(S+A) & 0xFFF`, is not invariant for general `k`). -/
theorem pcrel_translation_invariance :
    (∀ ty ∈ aarch64PrelKinds, ∀ loc addr k : Nat, ∀ mem mem' : Mem,
      readLE mem' ((loc + k) % 2 ^ 64) 4 = readLE mem loc 4 →
      outcomeMemWord
          (aarch64ApplyRelocation ty ((loc + k) % 2 ^ 64)
            ((addr + k) % 2 ^ 64) mem') ((loc + k) % 2 ^ 64)
          (aarch64RelWidth ty)
        = outcomeMemWord (aarch64ApplyRelocation ty loc addr mem) loc
            (aarch64RelWidth ty))
    ∧ (∀ ty : Aarch64RelocationType,
      (ty = .R_AARCH64_ADR_PREL_PG_HI21
        ∨ ty = .R_AARCH64_ADR_PREL_PG_HI21_NC) →
      ∀ loc addr k : Nat, 4096 ∣ k → ∀ mem mem' : Mem,
      readLE mem' ((loc + k) % 2 ^ 64) 4 = readLE mem loc 4 →
      outcomeMemWord
          (aarch64ApplyRelocation ty ((loc + k) % 2 ^ 64)
            ((addr + k) % 2 ^ 64) mem') ((loc + k) % 2 ^ 64) 4
        = outcomeMemWord (aarch64ApplyRelocation ty loc addr mem) loc 4)
    ∧ (∀ loc addr k : Nat, ∀ stack : List Int, ∀ mem mem' : Mem,
      (apply_r_larch_sop_push_pcrel ((loc + k) % 2 ^ 64)
          ((addr + k) % 2 ^ 64) stack
        = apply_r_larch_sop_push_pcrel loc addr stack)
      ∧ (outcomeMemWord
          (apply_r_larch_32_pcrel ((loc + k) % 2 ^ 64)
            ((addr + k) % 2 ^ 64) mem') ((loc + k) % 2 ^ 64) 4
        = outcomeMemWord (apply_r_larch_32_pcrel loc addr mem) loc 4)
      ∧ (outcomeMemWord
          (apply_r_larch_64_pcrel ((loc + k) % 2 ^ 64)
            ((addr + k) % 2 ^ 64) mem') ((loc + k) % 2 ^ 64) 8
        = outcomeMemWord (apply_r_larch_64_pcrel loc addr mem) loc 8))
    ∧ (∀ ty ∈ loongPcalaKinds, ∀ loc addr k : Nat, 4096 ∣ k →
      ∀ mem mem' : Mem,
      readLE mem' ((loc + k) % 2 ^ 64) 4 = readLE mem loc 4 →
      outcomeMemWord
          (apply_r_larch_pcala ty ((loc + k) % 2 ^ 64)
            ((addr + k) % 2 ^ 64) mem') ((loc + k) % 2 ^ 64) 4
        = outcomeMemWord (apply_r_larch_pcala ty loc addr mem) loc 4) :=
  ⟨fun ty hty loc addr k mem mem' hw =>
      aarch64_prel_kinds_shift ty hty loc addr k mem mem' hw,
    fun ty hty loc addr k hk mem mem' hw =>
      aarch64_page_kinds_shift ty hty loc addr k hk mem mem' hw,
    fun loc addr k stack mem mem' =>
      loong_pcrel_shift loc addr k stack mem mem',
    fun ty hty loc addr k hk mem mem' hw =>
      loong_pcala_shift ty hty loc addr k hk mem mem' hw⟩

/-- Witness for `pcrel_translation_invariance` at concrete inputs
(`PREL32` with `k = 4096`, `PG_HI21` and `PCALA_HI20` with `k = 4096`,
all-zero memory). -/
theorem pcrel_translation_invariance_witness :
    (Aarch64RelocationType.R_AARCH64_PREL32 ∈ aarch64PrelKinds
      ∧ (Aarch64RelocationType.R_AARCH64_ADR_PREL_PG_HI21
          = .R_AARCH64_ADR_PREL_PG_HI21
        ∨ Aarch64RelocationType.R_AARCH64_ADR_PREL_PG_HI21
          = .R_AARCH64_ADR_PREL_PG_HI21_NC)
      ∧ LaRelocationType.R_LARCH_PCALA_HI20 ∈ loongPcalaKinds
      ∧ (4096 : Nat) ∣ 4096
      ∧ readLE (fun _ => 0) ((0 + 4096) % 2 ^ 64) 4
          = readLE (fun _ => 0) 0 4)
    ∧ (outcomeMemWord
        (aarch64ApplyRelocation .R_AARCH64_PREL32 ((0 + 4096) % 2 ^ 64)
          ((0 + 4096) % 2 ^ 64) (fun _ => 0)) ((0 + 4096) % 2 ^ 64)
        (aarch64RelWidth .R_AARCH64_PREL32)
      = outcomeMemWord
          (aarch64ApplyRelocation .R_AARCH64_PREL32 0 0 (fun _ => 0)) 0
          (aarch64RelWidth .R_AARCH64_PREL32))
    ∧ (outcomeMemWord
        (aarch64ApplyRelocation .R_AARCH64_ADR_PREL_PG_HI21
          ((0 + 4096) % 2 ^ 64) ((0 + 4096) % 2 ^ 64) (fun _ => 0))
        ((0 + 4096) % 2 ^ 64) 4
      = outcomeMemWord
          (aarch64ApplyRelocation .R_AARCH64_ADR_PREL_PG_HI21 0 0
            (fun _ => 0)) 0 4)
    ∧ (outcomeMemWord
        (apply_r_larch_pcala .R_LARCH_PCALA_HI20 ((0 + 4096) % 2 ^ 64)
          ((0 + 4096) % 2 ^ 64) (fun _ => 0)) ((0 + 4096) % 2 ^ 64) 4
      = outcomeMemWord
          (apply_r_larch_pcala .R_LARCH_PCALA_HI20 0 0 (fun _ => 0)) 0 4) :=
  ⟨⟨(by decide), Or.inl rfl, (by decide), ⟨1, rfl⟩, rfl⟩,
    pcrel_translation_invariance.1 .R_AARCH64_PREL32 (by decide) 0 0 4096
      (fun _ => 0) (fun _ => 0) rfl,
    pcrel_translation_invariance.2.1 .R_AARCH64_ADR_PREL_PG_HI21
      (Or.inl rfl) 0 0 4096 ⟨1, rfl⟩ (fun _ => 0) (fun _ => 0) rfl,
    pcrel_translation_invariance.2.2.2 .R_LARCH_PCALA_HI20 (by decide)
      0 0 4096 ⟨1, rfl⟩ (fun _ => 0) (fun _ => 0) rfl⟩

end Rkm
